import Mathlib

/-!
Verification of the CPU/IRQ isolation subsystem of CRI-O's high-performance
runtime handler hooks (internal/runtimehandlerhooks/high_performance_hooks.go).

The Go code is embedded shallowly:

* the kernel-exposed filesystem (cgroupfs, sysfs, /proc files) is an explicit
  state `FS` mapping a (directory, file) pair to an optional content string,
  together with a fault-injection predicate `failing` marking the writes that
  fail (modelling EINVAL/EIO returned by the kernel);
* `cgroups.WriteFile` (which opens an existing cgroup interface file) is
  `FS.writeExisting`; `os.WriteFile` (create-or-truncate) is `FS.writeCreate`;
  `os.ReadFile`/`cgroups.ReadFile` is `FS.read`; `os.Remove` is `FS.remove`;
* fallible Go functions return `Except IOErr`/`Option IOErr` results paired
  with the resulting state; nil-pointer dereferences that crash the process
  are modelled by the distinguished results `POr.panicked`/`HookRes.panicked`;
* the k8s.io cpuset library (an external collaborator) is reimplemented over
  sorted duplicate-free lists of CPU indices, following its documented
  parse/stringify/union/difference semantics;
* external collaborators (cgroup managers, the cgroup hierarchy resolver,
  service control, the IRQ mask helpers living outside this file) are fields
  of an `Env` record threaded through the translation.
-/

/-- Error values flowing through the hooks: `notExist` models os.ErrNotExist
(ENOENT), `injected dir file` models an injected kernel write failure on that
file, `parseErr` a cpuset parse error, `msg` a fmt.Errorf error, and
`wrapped label e` a fmt.Errorf("label: %w", e) wrapping. -/
inductive IOErr where
  | notExist
  | injected (dir file : String)
  | parseErr (s : String)
  | msg (s : String)
  | wrapped (label : String) (e : IOErr)
  deriving DecidableEq, Repr

/-! ## Kernel-computable string helpers

Models of the Go strings functions used by the source (strings.Split,
strings.Contains, strings.TrimSpace, strings.Fields, strconv parsing,
prefix/suffix tests). They are written by structural recursion over character
lists so that concrete runs reduce inside the kernel. -/

/-- Char-list prefix test. -/
def isPrefixOfChars : List Char → List Char → Bool
  | [], _ => true
  | _ :: _, [] => false
  | a :: as, b :: bs => a == b && isPrefixOfChars as bs

/-- Char-list substring test (strings.Contains). -/
def containsSubChars (sub : List Char) : List Char → Bool
  | [] => isPrefixOfChars sub []
  | c :: t => isPrefixOfChars sub (c :: t) || containsSubChars sub t

/-- strings.Contains. -/
def strContains (s sub : String) : Bool := containsSubChars sub.toList s.toList

/-- Split a char list at every occurrence of `sep` (strings.Split with a
one-character separator); `acc` holds the current chunk reversed. -/
def splitSepChars (sep : Char) : List Char → List Char → List (List Char)
  | [], acc => [acc.reverse]
  | c :: rest, acc =>
    if c == sep then acc.reverse :: splitSepChars sep rest []
    else splitSepChars sep rest (c :: acc)

/-- strings.Split with a one-character separator. -/
def strSplitOnChar (sep : Char) (s : String) : List String :=
  (splitSepChars sep s.toList []).map String.mk

/-- Split a char list at every character satisfying `p`. -/
def splitPredChars (p : Char → Bool) : List Char → List Char → List (List Char)
  | [], acc => [acc.reverse]
  | c :: rest, acc =>
    if p c then acc.reverse :: splitPredChars p rest []
    else splitPredChars p rest (c :: acc)

/-- strings.Fields: whitespace-separated fields, empty chunks dropped. -/
def strFields (s : String) : List String :=
  ((splitPredChars (fun c => c.isWhitespace) s.toList []).map String.mk).filter
    (fun t => !(t == ""))

/-- Drop leading whitespace characters. -/
def dropWhileWs : List Char → List Char
  | [] => []
  | c :: r => if c.isWhitespace then dropWhileWs r else c :: r

/-- strings.TrimSpace. -/
def strTrim (s : String) : String :=
  String.mk ((dropWhileWs ((dropWhileWs s.toList).reverse)).reverse)

/-- Accumulate decimal digits (helper of `strToNat`). -/
def charsToNatAux : List Char → Nat → Option Nat
  | [], acc => some acc
  | c :: r, acc => if c.isDigit then charsToNatAux r (acc * 10 + (c.toNat - 48)) else none

/-- Parse a decimal natural (the strconv.Atoi shape k8s cpuset parsing
relies on); the empty string is not a number. -/
def strToNat (s : String) : Option Nat :=
  match s.toList with
  | [] => none
  | l => charsToNatAux l 0

/-- strings.HasPrefix. -/
def strStartsWith (s pre : String) : Bool := isPrefixOfChars pre.toList s.toList

/-- strings.HasSuffix. -/
def strEndsWith (s suf : String) : Bool := isPrefixOfChars suf.toList.reverse s.toList.reverse

/-- Drop the first n characters. -/
def strDrop (s : String) (n : Nat) : String := String.mk (s.toList.drop n)

/-- strings.Join / the concatenation underlying line rewriting. -/
def strIntercalate (sep : String) : List String → String
  | [] => ""
  | [x] => x
  | x :: y :: r => x ++ sep ++ strIntercalate sep (y :: r)

/-- A cpuset (k8s.io/kubernetes cpuset.CPUSet): we represent the set as an
ascending duplicate-free list of CPU indices, which is also what its List()
accessor returns. -/
abbrev CPUSet := List Nat

namespace CPUSet

/-- Insert a CPU index into an ascending duplicate-free list, keeping it so. -/
def insertSorted (x : Nat) : List Nat → List Nat
  | [] => [x]
  | y :: ys =>
    if x < y then x :: y :: ys
    else if x = y then y :: ys
    else y :: insertSorted x ys

/-- Normalize an arbitrary list of CPU indices into the canonical ascending
duplicate-free representation. -/
def normalize (l : List Nat) : CPUSet :=
  l.foldl (fun acc x => insertSorted x acc) []

/-- Union of two cpusets (cpuset.CPUSet.Union). -/
def union (a b : CPUSet) : CPUSet := normalize (a ++ b)

/-- Difference of two cpusets (cpuset.CPUSet.Difference). -/
def difference (a b : CPUSet) : CPUSet := a.filter (fun x => !(b.contains x))

/-- Number of CPUs in the set (cpuset.CPUSet.Size). -/
def size (a : CPUSet) : Nat := a.length

/-- Parse one comma-separated token of a cpuset string: either a single index
"n" or an inclusive range "a-b" (error when a > b or not a number). -/
def parseRange (s : String) : Option (List Nat) :=
  match strSplitOnChar '-' s with
  | [a] =>
    match strToNat a with
    | some n => some [n]
    | none => none
  | [a, b] =>
    match strToNat a, strToNat b with
    | some x, some y => if x ≤ y then some (List.range' x (y - x + 1)) else none
    | _, _ => none
  | _ => none

/-- cpuset.Parse: the empty string is the empty set; otherwise a
comma-separated list of indices and inclusive ranges; anything else is a
parse error (`none`). -/
def parse (s : String) : Option CPUSet :=
  if s = "" then some [] else
  match (strSplitOnChar ',' s).mapM parseRange with
  | some ls => some (normalize ls.flatten)
  | none => none

/-- cpuset.CPUSet.String: canonical form grouping runs of consecutive indices
as "a-b" and lone indices as "a", comma-separated. `runs xs a b` scans `xs`
extending the current run `[a..b]`. -/
def runs : List Nat → Nat → Nat → List (Nat × Nat)
  | [], a, b => [(a, b)]
  | x :: xs, a, b => if x = b + 1 then runs xs a x else (a, b) :: runs xs x x

/-- Canonical string form of a cpuset (cpuset.CPUSet.String). -/
def render : CPUSet → String
  | [] => ""
  | x :: xs =>
    strIntercalate ","
      ((runs xs x x).map (fun r =>
        if r.1 = r.2 then Nat.repr r.1 else Nat.repr r.1 ++ "-" ++ Nat.repr r.2))

end CPUSet

/-- The kernel-exposed filesystem state. `files` maps a (directory, file name)
pair to the content of that file when it exists; plain single-string paths
(e.g. /proc/irq/default_smp_affinity) are stored under the pair (path, "").
`failing` is the fault-injection predicate: a write to a marked pair fails. -/
structure FS where
  files : String × String → Option String
  failing : String × String → Bool

namespace FS

/-- cgroups.ReadFile / os.ReadFile: ENOENT when the file does not exist. -/
def read (fs : FS) (dir file : String) : Except IOErr String :=
  match fs.files (dir, file) with
  | some v => Except.ok v
  | none => Except.error IOErr.notExist

/-- cgroups.WriteFile: opens an existing cgroup interface file for writing;
ENOENT when the file (i.e. its cgroup directory) does not exist, injected
failure when the fault predicate marks the file. -/
def writeExisting (fs : FS) (dir file v : String) : Except IOErr FS :=
  match fs.files (dir, file) with
  | none => Except.error IOErr.notExist
  | some _ =>
    if fs.failing (dir, file) then Except.error (IOErr.injected dir file)
    else Except.ok { fs with files := fun k => if k = (dir, file) then some v else fs.files k }

/-- os.WriteFile: creates or truncates the file. -/
def writeCreate (fs : FS) (dir file v : String) : Except IOErr FS :=
  if fs.failing (dir, file) then Except.error (IOErr.injected dir file)
  else Except.ok { fs with files := fun k => if k = (dir, file) then some v else fs.files k }

/-- os.Remove: ENOENT when the file does not exist. -/
def remove (fs : FS) (dir file : String) : Except IOErr FS :=
  match fs.files (dir, file) with
  | none => Except.error IOErr.notExist
  | some _ =>
    Except.ok { fs with files := fun k => if k = (dir, file) then none else fs.files k }

/-- Read a file addressed by a plain path string. -/
def readPath (fs : FS) (p : String) : Except IOErr String := fs.read p ""

/-- os.WriteFile on a plain path string. -/
def writeCreatePath (fs : FS) (p v : String) : Except IOErr FS := fs.writeCreate p "" v

/-- fileExists on a plain path string. -/
def pathExists (fs : FS) (p : String) : Bool := (fs.files (p, "")).isSome

end FS

/-- Convenience constructor for concrete filesystem states used in witnesses:
an association list of files plus a list of write-fault keys. -/
def mkFS (entries : List ((String × String) × String)) (faults : List (String × String)) : FS :=
  { files := fun k => (entries.find? (fun e => decide (e.1 = k))).map (fun e => e.2)
    failing := fun k => faults.any (fun kk => decide (kk = k)) }

/-! ## Constants from the source file -/

/-- Annotation value "true" (deprecated form). -/
def annotationTrue : String := "true"

/-- Annotation value "disable". -/
def annotationDisable : String := "disable"

/-- Annotation value "enable". -/
def annotationEnable : String := "enable"

/-- Root of the mounted cgroup filesystem. -/
def cgroupMountPoint : String := "/sys/fs/cgroup"

/-- Key of the irqbalance banned-CPUs setting in its config file. -/
def irqBalanceBannedCpus : String := "IRQBALANCE_BANNED_CPUS"

/-- Live per-CPU sysfs root. -/
def sysCPUDir : String := "/sys/devices/system/cpu"

/-- Runtime-private save directory mirroring the sysfs knobs. -/
def sysCPUSaveDir : String := "/var/run/crio/cpu"

/-- The /proc file holding the default IRQ smp affinity mask. -/
def IrqSmpAffinityProcFile : String := "/proc/irq/default_smp_affinity"

/-- milliCPUToCPU conversion factor. -/
def milliCPUToCPU : Int := 1000

/-- cpuset.cpus.partition interface file name. -/
def cpusetPartition : String := "cpuset.cpus.partition"

/-- cpuset.cpus.exclusive interface file name. -/
def cpusetExclusive : String := "cpuset.cpus.exclusive"

/-- cpuset.cpus interface file name. -/
def cpusetCpus : String := "cpuset.cpus"

/-- cgroup.subtree_control interface file name. -/
def cgroupSubTreeControl : String := "cgroup.subtree_control"

/-- cgroup v1 CFS quota file name. -/
def cgroupV1Quota : String := "cpu.cfs_quota_us"

/-- cgroup v2 CFS quota file name. -/
def cgroupV2Quota : String := "cpu.max"

/-- Environment variable carrying the isolated CPU list into the container. -/
def IsolatedCPUsEnvVar : String := "OPENSHIFT_ISOLATED_CPUS"

/-- Environment variable carrying the shared CPU list into the container. -/
def SharedCPUsEnvVar : String := "OPENSHIFT_SHARED_CPUS"

/-- Modelled from the spec: annotation key for the load-balancing-disable
directive (crioannotations.CPULoadBalancingAnnotation, defined in
pkg/annotations outside src). -/
def annCPULoadBalancing : String := "cpu-load-balancing.crio.io"

/-- Modelled from the spec: annotation key for the quota-disable directive
(crioannotations.CPUQuotaAnnotation, outside src). -/
def annCPUQuota : String := "cpu-quota.crio.io"

/-- Modelled from the spec: annotation key for the irq-balancing-disable
directive (crioannotations.IRQLoadBalancingAnnotation, outside src). -/
def annIRQLoadBalancing : String := "irq-load-balancing.crio.io"

/-- Modelled from the spec: annotation key for the c-states directive
(crioannotations.CPUCStatesAnnotation, outside src). -/
def annCPUCStates : String := "cpu-c-states.crio.io"

/-- Modelled from the spec: annotation key for the frequency-governor
directive (crioannotations.CPUFreqGovernorAnnotation, outside src). -/
def annCPUFreqGovernor : String := "cpu-freq-governor.crio.io"

/-- Modelled from the spec: base annotation key for the per-container
shared-cpu directive (crioannotations.CPUSharedAnnotation, outside src). -/
def annCPUShared : String := "cpu-shared.crio.io"

/-! ## Container and sandbox descriptors -/

/-- The linux CPU resource block of a container spec; `period` and `shares`
are nullable pointers in the OCI runtime spec, hence Options. -/
structure LinuxCPU where
  cpus : String
  period : Option Nat
  shares : Option Nat
  deriving DecidableEq, Repr

/-- specs.LinuxResources, restricted to the field this code touches. -/
structure LinuxResources where
  cpu : Option LinuxCPU
  deriving DecidableEq, Repr

/-- specs.Linux, restricted to the field this code touches. -/
structure LinuxSpec where
  resources : Option LinuxResources
  deriving DecidableEq, Repr

/-- specs.Process, restricted to the environment list. -/
structure ProcessSpec where
  env : List String
  deriving DecidableEq, Repr

/-- An OCI container spec: the Linux block and the Process block are
nullable. -/
structure ContainerSpec where
  linux : Option LinuxSpec
  process : Option ProcessSpec
  deriving DecidableEq, Repr

deriving instance DecidableEq for Except

/-- The container accessor consumed by the hooks: ID, name, spec, and the
possibly-failing Pid() lookup. -/
structure Container where
  id : String
  name : String
  spec : ContainerSpec
  pid : Except IOErr Nat
  deriving DecidableEq, Repr

/-- The sandbox (pod) accessor: annotation map and cgroup-parent path. -/
structure Sandbox where
  annotations : List (String × String)
  cgroupParent : String
  deriving DecidableEq, Repr

/-- Assoc-list lookup modelling a Go map read (first binding wins). -/
def lookupStr (m : List (String × String)) (k : String) : Option String :=
  (m.find? (fun e => decide (e.1 = k))).map (fun e => e.2)

/-- The guard repeated at the top of every controller:
lspec == nil || lspec.Resources == nil || lspec.Resources.CPU == nil ||
lspec.Resources.CPU.Cpus == "". -/
def cpuSpecMissing (cSpec : ContainerSpec) : Bool :=
  match cSpec.linux with
  | none => true
  | some l =>
    match l.resources with
    | none => true
    | some r =>
      match r.cpu with
      | none => true
      | some cpu => decide (cpu.cpus = "")

/-- The container's CPU list string (total accessor; meaningful when
`cpuSpecMissing` is false). -/
def specCPUs (cSpec : ContainerSpec) : String :=
  match cSpec.linux with
  | some l =>
    match l.resources with
    | some r =>
      match r.cpu with
      | some cpu => cpu.cpus
      | none => ""
    | none => ""
  | none => ""

/-- The container's CFS period pointer (none models a nil pointer). -/
def specCPUPeriod (cSpec : ContainerSpec) : Option Nat :=
  match cSpec.linux with
  | some l =>
    match l.resources with
    | some r =>
      match r.cpu with
      | some cpu => cpu.period
      | none => none
    | none => none
  | none => none

/-- Result of a computation that can crash on a nil-pointer dereference. -/
inductive POr (α : Type) where
  | ok (a : α)
  | panicked
  deriving DecidableEq, Repr

/-- Result of one hook call: success, a returned error, or a runtime panic. -/
inductive HookRes where
  | ok
  | err (e : IOErr)
  | panicked
  deriving DecidableEq, Repr

/-- The cgroup hierarchy resolver returned by node.CgroupBuildHierarchyFrom
(repository code outside src, modelled abstractly): absolute pod-level and
container-level paths per controller name. -/
structure CgroupHierarchy where
  podPath : String → String
  ctrPath : String → String

/-- External collaborators and process-global configuration threaded through
the hooks: the cgroup version probe, the /proc cgroup-file parser, the
cgroup managers, service control for irqbalance, and the two
HighPerformanceHooks fields (irqBalanceConfigFile, sharedCPUs). -/
structure Env where
  cgroupV2 : Bool
  /-- cgroups.ParseCgroupFile of /proc/pid/cgroup (external): controller
  name to cgroup path. -/
  parseCgroupFile : Nat → Except IOErr (List (String × String))
  /-- Modelled from the spec: UpdateIRQSmpAffinityMask (repository code
  outside src) — from the container cpus, the current mask and the enable
  flag, compute the new mask and the new irqbalance banned-CPUs value. -/
  updateIRQSmpAffinityMask : String → String → Bool → Except IOErr (String × String)
  /-- isServiceEnabled("irqbalance") (repository code outside src). -/
  isServiceEnabled : Bool
  /-- exec.LookPath("irqbalance") succeeds. -/
  irqBalanceBinaryInstalled : Bool
  /-- result of running the one-shot irqbalance command. -/
  oneshotRunErr : Option IOErr
  /-- CgroupManager.ContainerCgroupAbsolutePath under the selected driver
  (systemd flag, parent dir, container id). -/
  containerCgroupAbsolutePath : Bool → String → String → Except IOErr String
  /-- libcontainer manager Set with CpuQuota=-1, SkipDevices (external
  effect on the filesystem), keyed by cgroup, parent, systemd flag. -/
  libctrSetUnlimitedQuota : String → String → Bool → FS → FS × Option IOErr
  /-- node.CgroupBuildHierarchyFrom (repository code outside src). -/
  buildHierarchy : Nat → Except IOErr CgroupHierarchy
  /-- HighPerformanceHooks.irqBalanceConfigFile. -/
  irqBalanceConfigFile : String
  /-- HighPerformanceHooks.sharedCPUs (a nullable pointer). -/
  sharedCPUs : Option CPUSet

/-! ## Annotation policy and eligibility gate -/

/-- shouldCPULoadBalancingBeDisabled: true when the annotation value is
"true" (deprecated) or "disable". -/
def shouldCPULoadBalancingBeDisabled (a : List (String × String)) : Bool :=
  decide (lookupStr a annCPULoadBalancing = some annotationTrue) ||
  decide (lookupStr a annCPULoadBalancing = some annotationDisable)

/-- shouldCPUQuotaBeDisabled. -/
def shouldCPUQuotaBeDisabled (a : List (String × String)) : Bool :=
  decide (lookupStr a annCPUQuota = some annotationTrue) ||
  decide (lookupStr a annCPUQuota = some annotationDisable)

/-- shouldIRQLoadBalancingBeDisabled. -/
def shouldIRQLoadBalancingBeDisabled (a : List (String × String)) : Bool :=
  decide (lookupStr a annIRQLoadBalancing = some annotationTrue) ||
  decide (lookupStr a annIRQLoadBalancing = some annotationDisable)

/-- shouldCStatesBeConfigured: present flag and carried value (the Go map
read yields the zero value "" when absent). -/
def shouldCStatesBeConfigured (a : List (String × String)) : Bool × String :=
  match lookupStr a annCPUCStates with
  | some v => (true, v)
  | none => (false, "")

/-- shouldFreqGovernorBeConfigured. -/
def shouldFreqGovernorBeConfigured (a : List (String × String)) : Bool × String :=
  match lookupStr a annCPUFreqGovernor with
  | some v => (true, v)
  | none => (false, "")

/-- requestedSharedCPUs: keyed per container by `basekey/containerName`,
present only with value "enable". -/
def requestedSharedCPUs (a : List (String × String)) (cName : String) : Bool :=
  match lookupStr a (annCPUShared ++ "/" ++ cName) with
  | some v => decide (v = annotationEnable)
  | none => false

/-- isCgroupParentBurstable. -/
def isCgroupParentBurstable (s : Sandbox) : Bool := strContains s.cgroupParent "burstable"

/-- isCgroupParentBestEffort. -/
def isCgroupParentBestEffort (s : Sandbox) : Bool := strContains s.cgroupParent "besteffort"

/-- isContainerRequestWholeCPU: `*(cSpec.Linux.Resources.CPU.Shares)%1024 == 0`
with no nil checks — a nil anywhere on the chain crashes. -/
def isContainerRequestWholeCPU (cSpec : ContainerSpec) : POr Bool :=
  match cSpec.linux with
  | none => POr.panicked
  | some l =>
    match l.resources with
    | none => POr.panicked
    | some r =>
      match r.cpu with
      | none => POr.panicked
      | some cpu =>
        match cpu.shares with
        | none => POr.panicked
        | some sh => POr.ok (decide (sh % 1024 = 0))

/-- shouldRunHooks: skip burstable pods, then besteffort pods, then
containers not requesting whole CPUs. -/
def shouldRunHooks (cSpec : ContainerSpec) (s : Sandbox) : POr Bool :=
  if isCgroupParentBurstable s then POr.ok false
  else if isCgroupParentBestEffort s then POr.ok false
  else
    match isContainerRequestWholeCPU cSpec with
    | POr.panicked => POr.panicked
    | POr.ok b => POr.ok b

/-! ## Load-balancing controller -/

/-- cpusetOfContainer: resolve the container's cpuset cgroup path from
/proc/pid/cgroup (keyed "" on v2, "cpuset" on v1). -/
def cpusetOfContainer (env : Env) (c : Container) : Except IOErr String :=
  match c.pid with
  | Except.error e =>
    Except.error (IOErr.wrapped ("failed to get pid of container " ++ c.id) e)
  | Except.ok pid =>
    match env.parseCgroupFile pid with
    | Except.error e =>
      Except.error (IOErr.wrapped ("failed to get cgroups of container " ++ c.id) e)
    | Except.ok controllers =>
      let p := if env.cgroupV2 then "" else "cpuset"
      match lookupStr controllers p with
      | some cpusetPath => Except.ok cpusetPath
      | none => Except.error (IOErr.msg ("failed to get cpuset of container " ++ c.id))

/-- addOrRemoveCpusetFromFile: read the current cpuset from `file` under
`path`, union/difference `cpus` into it, write it back, and return the raw
pre-write content for a possible revert. -/
def addOrRemoveCpusetFromFile (fs : FS) (path file : String) (cpus : CPUSet) (add : Bool) :
    Except IOErr (String × FS) :=
  match fs.read path file with
  | Except.error e => Except.error e
  | Except.ok currentCpusStr =>
    match CPUSet.parse (strTrim currentCpusStr) with
    | none => Except.error (IOErr.parseErr currentCpusStr)
    | some currentCpus =>
      let targetCpus := if add then currentCpus.union cpus else currentCpus.difference cpus
      match fs.writeExisting path file targetCpus.render with
      | Except.error e => Except.error e
      | Except.ok fs2 => Except.ok (currentCpusStr, fs2)

/-- The "double check the cpuset.cpus are correctly set" step of the per-
directory walk of setCPULoadBalancingV2, performed only when disabling (the
returned pre-write value is discarded by the caller). -/
def v2FixCpus (cpus : CPUSet) (enable : Bool) (p : String) (fs : FS) : Except IOErr FS :=
  if enable then Except.ok fs
  else
    match addOrRemoveCpusetFromFile fs p cpusetCpus cpus true with
    | Except.error e => Except.error e
    | Except.ok r => Except.ok r.2

/-- The per-directory walk of setCPULoadBalancingV2: for each non-empty path
component, when disabling first fix cpuset.cpus, then add (disable) or remove
(enable) the container cpus in cpuset.cpus.exclusive, collecting for each
directory the captured pre-write exclusive value for the revert map. Returns
the resulting state, the revert entries and the first error, if any. -/
def v2Loop (cpus : CPUSet) (enable : Bool) :
    List String → String → FS → FS × List (String × String) × Option IOErr
  | [], _, fs => (fs, [], none)
  | d :: rest, currentPath, fs =>
    if d = "" then v2Loop cpus enable rest currentPath fs
    else
      match v2FixCpus cpus enable (currentPath ++ "/" ++ d) fs with
      | Except.error e => (fs, [], some e)
      | Except.ok fs1 =>
        match addOrRemoveCpusetFromFile fs1 (currentPath ++ "/" ++ d) cpusetExclusive cpus
            (!enable) with
        | Except.error e => (fs1, [], some e)
        | Except.ok (old, fs2) =>
          let r := v2Loop cpus enable rest (currentPath ++ "/" ++ d) fs2
          (r.1, r.2.1 ++ [(currentPath ++ "/" ++ d, old)], r.2.2)

/-- The deferred revert of setCPULoadBalancingV2: write every captured
cpuset.cpus.exclusive value back; failures are logged and swallowed. (The Go
map iteration order is unspecified; entries address distinct directories, so
any order yields the same state.) -/
def revertAll : List (String × String) → FS → FS
  | [], fs => fs
  | pv :: rest, fs =>
    match fs.writeExisting pv.1 cpusetExclusive pv.2 with
    | Except.ok fs2 => revertAll rest fs2
    | Except.error _ => revertAll rest fs

/-- filepath.Join("/sys/fs/cgroup", p) for the paths this code handles. -/
def joinPath (a b : String) : String :=
  if b = "" then a else if strStartsWith b "/" then a ++ b else a ++ "/" ++ b

/-- setCPULoadBalancingV2: parse the container cpus, resolve its cpuset
cgroup path, walk every path component updating cpuset.cpus.exclusive, then
write cpuset.cpus.partition = isolated on the leaf. On error the captured
exclusive values are reverted (best effort) and the original error is
returned; a missing leaf during re-enable is success. -/
def setCPULoadBalancingV2 (env : Env) (c : Container) (enable : Bool) (fs : FS) :
    FS × Option IOErr :=
  match CPUSet.parse (specCPUs c.spec) with
  | none => (fs, some (IOErr.parseErr (specCPUs c.spec)))
  | some cpus =>
    match cpusetOfContainer env c with
    | Except.error e => (fs, some e)
    | Except.ok cpusetPath =>
      let r := v2Loop cpus enable (strSplitOnChar '/' cpusetPath) cgroupMountPoint fs
      match r.2.2 with
      | some e => (revertAll r.2.1 r.1, some e)
      | none =>
        match r.1.writeExisting (joinPath cgroupMountPoint cpusetPath) cpusetPartition "isolated" with
        | Except.ok fs2 => (fs2, none)
        | Except.error e =>
          if e = IOErr.notExist ∧ enable = true then (r.1, none)
          else (revertAll r.2.1 r.1, some e)

/-- disableCPULoadBalancingV1: write 0 to cpuset.sched_load_balance in the
container's v1 cpuset cgroup. -/
def disableCPULoadBalancingV1 (env : Env) (c : Container) (fs : FS) : FS × Option IOErr :=
  match cpusetOfContainer env c with
  | Except.error e => (fs, some e)
  | Except.ok cpusetPath =>
    match fs.writeExisting ("/sys/fs/cgroup/cpuset" ++ cpusetPath) "cpuset.sched_load_balance" "0" with
    | Except.error e => (fs, some e)
    | Except.ok fs1 => (fs1, none)

/-- setCPULoadBalancing: guard on the CPU allocation, then dispatch on the
cgroup version; re-enabling on v1 is a no-op. -/
def setCPULoadBalancing (env : Env) (c : Container) (enable : Bool) (fs : FS) :
    FS × Option IOErr :=
  if cpuSpecMissing c.spec then (fs, some (IOErr.msg ("find container " ++ c.id ++ " CPUs")))
  else if env.cgroupV2 then setCPULoadBalancingV2 env c enable fs
  else if enable = false then disableCPULoadBalancingV1 env c fs
  else (fs, none)

/-! ## Power-knob controller (PM-QoS resume latency, frequency governor) -/

/-- The per-CPU loop of doSetCPUPMQOSResumeLatency. A non-empty latency saves
the live value then overwrites the knob; an empty latency restores: a missing
save file returns success for the whole call (the value may have already been
restored), otherwise the saved value is written back and the save file
removed. os.MkdirAll is a no-op in this model (directories are implicit). -/
def pmqosLoop (latency cpuDir cpuSaveDir : String) : List Nat → FS → FS × Option IOErr
  | [], fs => (fs, none)
  | cpu :: rest, fs =>
    let latencyDir := cpuDir ++ "/cpu" ++ Nat.repr cpu ++ "/power"
    let cpuPowerSaveDir := cpuSaveDir ++ "/cpu" ++ Nat.repr cpu ++ "/power"
    if latency ≠ "" then
      match fs.read latencyDir "pm_qos_resume_latency_us" with
      | Except.error e => (fs, some e)
      | Except.ok latencyOrig =>
        match fs.writeCreate cpuPowerSaveDir "pm_qos_resume_latency_us" latencyOrig with
        | Except.error e => (fs, some e)
        | Except.ok fs1 =>
          match fs1.writeCreate latencyDir "pm_qos_resume_latency_us" latency with
          | Except.error e => (fs1, some e)
          | Except.ok fs2 => pmqosLoop latency cpuDir cpuSaveDir rest fs2
    else
      match fs.read cpuPowerSaveDir "pm_qos_resume_latency_us" with
      | Except.error e => if e = IOErr.notExist then (fs, none) else (fs, some e)
      | Except.ok latencyOrig =>
        match fs.writeCreate latencyDir "pm_qos_resume_latency_us" latencyOrig with
        | Except.error e => (fs, some e)
        | Except.ok fs1 =>
          match fs1.remove cpuPowerSaveDir "pm_qos_resume_latency_us" with
          | Except.error e => (fs1, some e)
          | Except.ok fs2 => pmqosLoop latency cpuDir cpuSaveDir rest fs2

/-- doSetCPUPMQOSResumeLatency: guard the CPU allocation, parse it, then run
the per-CPU loop. -/
def doSetCPUPMQOSResumeLatency (c : Container) (latency cpuDir cpuSaveDir : String) (fs : FS) :
    FS × Option IOErr :=
  if cpuSpecMissing c.spec then (fs, some (IOErr.msg ("find container " ++ c.id ++ " CPUs")))
  else
    match CPUSet.parse (specCPUs c.spec) with
    | none => (fs, some (IOErr.parseErr (specCPUs c.spec)))
    | some cpus => pmqosLoop latency cpuDir cpuSaveDir cpus fs

/-- setCPUPMQOSResumeLatency: the production entry point with the fixed sysfs
and save directories. -/
def setCPUPMQOSResumeLatency (c : Container) (latency : String) (fs : FS) : FS × Option IOErr :=
  doSetCPUPMQOSResumeLatency c latency sysCPUDir sysCPUSaveDir fs

/-- isCPUGovernorSupported: the requested governor must appear among the
whitespace-separated fields of scaling_available_governors. -/
def isCPUGovernorSupported (fs : FS) (governor cpuDir : String) (cpu : Nat) : Option IOErr :=
  match fs.read (cpuDir ++ "/cpu" ++ Nat.repr cpu ++ "/cpufreq") "scaling_available_governors" with
  | Except.error e => some e
  | Except.ok avail =>
    if (strFields avail).contains governor
    then none
    else some (IOErr.msg ("governor " ++ governor ++ " not available for cpu " ++ Nat.repr cpu))

/-- The per-CPU loop of doSetCPUFreqGovernor; same save/apply/restore shape
as the latency knob plus the availability validation when applying. -/
def governorLoop (governor cpuDir cpuSaveDir : String) : List Nat → FS → FS × Option IOErr
  | [], fs => (fs, none)
  | cpu :: rest, fs =>
    let governorDir := cpuDir ++ "/cpu" ++ Nat.repr cpu ++ "/cpufreq"
    let cpuFreqSaveDir := cpuSaveDir ++ "/cpu" ++ Nat.repr cpu ++ "/cpufreq"
    if governor ≠ "" then
      match fs.read governorDir "scaling_governor" with
      | Except.error e => (fs, some e)
      | Except.ok governorOrig =>
        match isCPUGovernorSupported fs governor cpuDir cpu with
        | some e => (fs, some e)
        | none =>
          match fs.writeCreate cpuFreqSaveDir "scaling_governor" governorOrig with
          | Except.error e => (fs, some e)
          | Except.ok fs1 =>
            match fs1.writeCreate governorDir "scaling_governor" governor with
            | Except.error e => (fs1, some e)
            | Except.ok fs2 => governorLoop governor cpuDir cpuSaveDir rest fs2
    else
      match fs.read cpuFreqSaveDir "scaling_governor" with
      | Except.error e => if e = IOErr.notExist then (fs, none) else (fs, some e)
      | Except.ok governorOrig =>
        match fs.writeCreate governorDir "scaling_governor" governorOrig with
        | Except.error e => (fs, some e)
        | Except.ok fs1 =>
          match fs1.remove cpuFreqSaveDir "scaling_governor" with
          | Except.error e => (fs1, some e)
          | Except.ok fs2 => governorLoop governor cpuDir cpuSaveDir rest fs2

/-- doSetCPUFreqGovernor: guard the CPU allocation, parse it, then run the
per-CPU loop. -/
def doSetCPUFreqGovernor (c : Container) (governor cpuDir cpuSaveDir : String) (fs : FS) :
    FS × Option IOErr :=
  if cpuSpecMissing c.spec then (fs, some (IOErr.msg ("find container " ++ c.id ++ " CPUs")))
  else
    match CPUSet.parse (specCPUs c.spec) with
    | none => (fs, some (IOErr.parseErr (specCPUs c.spec)))
    | some cpus => governorLoop governor cpuDir cpuSaveDir cpus fs

/-- setCPUFreqGovernor: the production entry point with the fixed sysfs and
save directories. -/
def setCPUFreqGovernor (c : Container) (governor : String) (fs : FS) : FS × Option IOErr :=
  doSetCPUFreqGovernor c governor sysCPUDir sysCPUSaveDir fs

/-! ## IRQ affinity controller -/

/-- Modelled from the spec: updateIrqBalanceConfigFile (repository code
outside src) rewrites the IRQBALANCE_BANNED_CPUS=value line of the irqbalance
config in place, preserving all other lines. -/
def updateIrqBalanceConfigFile (fs : FS) (file newBal : String) : FS × Option IOErr :=
  match fs.readPath file with
  | Except.error e => (fs, some e)
  | Except.ok content =>
    let lines := strSplitOnChar '\n' content
    let rewritten := lines.map (fun l =>
      if strStartsWith l (irqBalanceBannedCpus ++ "=")
      then irqBalanceBannedCpus ++ "=" ++ newBal
      else l)
    match fs.writeCreatePath file (strIntercalate "\n" rewritten) with
    | Except.error e => (fs, some e)
    | Except.ok fs1 => (fs1, none)

/-- setIRQLoadBalancing: read the affinity mask, update it for the container
cpus, write it back; rewrite the irqbalance config when it exists; then
either run a one-shot irqbalance (missing binary is non-fatal) or restart the
service (restart failure is non-fatal). -/
def setIRQLoadBalancing (env : Env) (c : Container) (enable : Bool)
    (irqSmpAffinityFile irqBalanceConfigFile : String) (fs : FS) : FS × Option IOErr :=
  if cpuSpecMissing c.spec then (fs, some (IOErr.msg ("find container " ++ c.id ++ " CPUs")))
  else
    match fs.readPath irqSmpAffinityFile with
    | Except.error e => (fs, some e)
    | Except.ok content =>
      let currentIRQSMPSetting := strTrim content
      match env.updateIRQSmpAffinityMask (specCPUs c.spec) currentIRQSMPSetting enable with
      | Except.error e => (fs, some e)
      | Except.ok (newIRQSMPSetting, newIRQBalanceSetting) =>
        match fs.writeCreatePath irqSmpAffinityFile newIRQSMPSetting with
        | Except.error e => (fs, some e)
        | Except.ok fs1 =>
          let isIrqConfigExists := fs1.pathExists irqBalanceConfigFile
          match (if isIrqConfigExists
                 then updateIrqBalanceConfigFile fs1 irqBalanceConfigFile newIRQBalanceSetting
                 else (fs1, none)) with
          | (fs2, some e) => (fs2, some e)
          | (fs2, none) =>
            if !env.isServiceEnabled || !isIrqConfigExists then
              if !env.irqBalanceBinaryInstalled then (fs2, none)
              else (fs2, env.oneshotRunErr)
            else (fs2, none)

/-! ## Quota controller -/

/-- filepath.Base for the slash-separated paths this code produces. -/
def baseName (p : String) : String :=
  match (strSplitOnChar '/' p).reverse with
  | [] => p
  | x :: _ => x

/-- filepath.Dir for the slash-separated paths this code produces. -/
def dirName (p : String) : String :=
  strIntercalate "/" (strSplitOnChar '/' p).dropLast

/-- containerCgroupAndParent: select the cgroup driver from the parent-dir
naming convention (a .slice suffix means systemd), resolve the container's
absolute cgroup path, and split it into name and parent; under systemd the
scope cgroup is addressed by container ID. -/
def containerCgroupAndParent (env : Env) (parentDir : String) (c : Container) :
    Except IOErr (String × String × Bool) :=
  let systemd := strEndsWith parentDir ".slice"
  match env.containerCgroupAbsolutePath systemd parentDir c.id with
  | Except.error e => Except.error e
  | Except.ok cgroupPath =>
    let containerCgroup := if systemd then c.id else baseName cgroupPath
    Except.ok (containerCgroup, dirName cgroupPath, systemd)

/-- disableCPUQuotaForCgroup: apply an unlimited-quota resource update via
the external libcontainer manager. -/
def disableCPUQuotaForCgroup (env : Env) (cgroup parent : String) (systemd : Bool) (fs : FS) :
    FS × Option IOErr :=
  env.libctrSetUnlimitedQuota cgroup parent systemd fs

/-- setCPUQuota: disable the CFS quota at the pod directory, then at the
container directory. -/
def setCPUQuota (env : Env) (parentDir : String) (c : Container) (fs : FS) : FS × Option IOErr :=
  match containerCgroupAndParent env parentDir c with
  | Except.error e => (fs, some e)
  | Except.ok (containerCgroup, containerCgroupParent, systemd) =>
    let podCgroup := baseName containerCgroupParent
    let podCgroupParent := dirName containerCgroupParent
    match disableCPUQuotaForCgroup env podCgroup podCgroupParent systemd fs with
    | (fs1, some e) => (fs1, some e)
    | (fs1, none) => disableCPUQuotaForCgroup env containerCgroup containerCgroupParent systemd fs1

/-! ## Shared-CPU controller -/

/-- The version-appropriate CFS quota file name. -/
def quotaFile (env : Env) : String :=
  if env.cgroupV2 then cgroupV2Quota else cgroupV1Quota

/-- calculateCFSQuota: resource.ParseQuantity of the decimal CPU count always
succeeds and its MilliValue is count * 1000 (external k8s resource library);
quota = milliCPU * period / milliCPUToCPU. -/
def calculateCFSQuota (cpus : CPUSet) (period : Int) : Except IOErr Int :=
  Except.ok (Int.ofNat cpus.size * 1000 * period / milliCPUToCPU)

/-- injectCpusetEnv: append the isolated and shared CPU lists to the
container process environment and store the spec back; a nil Process block
would crash on the dereference (`none`). -/
def injectCpusetEnv (c : Container) (isolated shared : CPUSet) : Option Container :=
  match c.spec.process with
  | none => none
  | some p =>
    some { c with spec :=
      { c.spec with process := some { p with env :=
          p.env ++ [IsolatedCPUsEnvVar ++ "=" ++ isolated.render,
                    SharedCPUsEnvVar ++ "=" ++ shared.render] } } }

/-- The nested-child carve-out at the end of setSharedCPUs, entered when
load-balancing disable is also requested on cgroup v2: enable +cpu +cpuset
below the container cgroup, demote it to partition member, create a child
directory and give it the isolated cpus as an isolated partition. The child
directory's interface files materialize on mkdir; this model creates them on
write. -/
def sharedCpusChildSetup (env : Env) (s : Sandbox) (isolatedCPUs : CPUSet)
    (ctrCgroup : String) (fs : FS) : FS × Option IOErr :=
  if shouldCPULoadBalancingBeDisabled s.annotations ∧ env.cgroupV2 = true then
    match fs.writeExisting ctrCgroup cgroupSubTreeControl "+cpu +cpuset" with
    | Except.error e => (fs, some e)
    | Except.ok fs1 =>
      match fs1.writeExisting ctrCgroup cpusetPartition "member" with
      | Except.error e => (fs1, some e)
      | Except.ok fs2 =>
        let cgroupChildDir := ctrCgroup ++ "/cgroup-child"
        match fs2.writeCreate cgroupChildDir cpusetCpus isolatedCPUs.render with
        | Except.error e => (fs2, some e)
        | Except.ok fs3 =>
          match fs3.writeCreate cgroupChildDir cpusetExclusive isolatedCPUs.render with
          | Except.error e => (fs3, some e)
          | Except.ok fs4 =>
            match fs4.writeCreate cgroupChildDir cpusetPartition "isolated" with
            | Except.error e => (fs4, some e)
            | Except.ok fs5 => (fs5, none)
  else (fs, none)

/-- setSharedCPUs: require an isolated CPU list, union in the shared cpus,
derive the CFS quota for the union (dereferencing the nullable Period and the
nullable sharedCPUs pointer without checks), resolve pod- and container-level
paths, add the shared cpus to both cpuset.cpus files and write the quota to
both quota files, optionally carve out the nested isolated child, and inject
the cpuset environment variables. -/
def setSharedCPUs (env : Env) (c : Container) (s : Sandbox) (sharedCPUs : Option CPUSet)
    (fs : FS) : FS × Container × HookRes :=
  if cpuSpecMissing c.spec then
    (fs, c, HookRes.err (IOErr.msg ("no cpus found for container " ++ c.name)))
  else
    match CPUSet.parse (specCPUs c.spec) with
    | none => (fs, c, HookRes.err (IOErr.parseErr (specCPUs c.spec)))
    | some isolatedCPUs =>
      match sharedCPUs with
      | none => (fs, c, HookRes.panicked)
      | some shared =>
        let ctrCpuSet := isolatedCPUs.union shared
        match specCPUPeriod c.spec with
        | none => (fs, c, HookRes.panicked)
        | some period =>
          match calculateCFSQuota ctrCpuSet (Int.ofNat period) with
          | Except.error e => (fs, c, HookRes.err e)
          | Except.ok quota =>
            match c.pid with
            | Except.error e =>
              (fs, c, HookRes.err (IOErr.wrapped ("failed to get pid of container " ++ c.id) e))
            | Except.ok pid =>
              match env.buildHierarchy pid with
              | Except.error e =>
                (fs, c, HookRes.err
                  (IOErr.wrapped ("failed to build cgroup hierarchy of container " ++ c.id) e))
              | Except.ok ch =>
                let podCpusetCgroup := ch.podPath "cpuset"
                let podCpuAcctCgroup := ch.podPath "cpuacct"
                match addOrRemoveCpusetFromFile fs podCpusetCgroup cpusetCpus shared true with
                | Except.error e => (fs, c, HookRes.err e)
                | Except.ok (_, fs1) =>
                  match fs1.writeExisting podCpuAcctCgroup (quotaFile env) (toString quota) with
                  | Except.error e => (fs1, c, HookRes.err e)
                  | Except.ok fs2 =>
                    let ctrCpusetCgroup := ch.ctrPath "cpuset"
                    let ctrCpuAcctCgroup := ch.ctrPath "cpuacct"
                    match addOrRemoveCpusetFromFile fs2 ctrCpusetCgroup cpusetCpus shared true with
                    | Except.error e => (fs2, c, HookRes.err e)
                    | Except.ok (_, fs3) =>
                      match fs3.writeExisting ctrCpuAcctCgroup (quotaFile env) (toString quota) with
                      | Except.error e => (fs3, c, HookRes.err e)
                      | Except.ok fs4 =>
                        match sharedCpusChildSetup env s isolatedCPUs ctrCpusetCgroup fs4 with
                        | (fs5, some e) => (fs5, c, HookRes.err e)
                        | (fs5, none) =>
                          match injectCpusetEnv c isolatedCPUs shared with
                          | none => (fs5, c, HookRes.panicked)
                          | some c2 => (fs5, c2, HookRes.ok)

/-! ## Boot-time irqbalance reconciliation -/

/-- Modelled from the spec: mapHexCharToByte (repository code outside src)
maps each hex character of the concatenated mask to its 4-bit value, failing
on a non-hex character. -/
def hexCharToNat (ch : Char) : Option Nat :=
  if ch.isDigit then some (ch.toNat - 48)
  else if 'a' ≤ ch ∧ ch ≤ 'f' then some (ch.toNat - 87)
  else if 'A' ≤ ch ∧ ch ≤ 'F' then some (ch.toNat - 55)
  else none

/-- Modelled from the spec: mapHexCharToByte over a whole string. -/
def mapHexCharToByte (s : String) : Except IOErr (List Nat) :=
  match s.toList.mapM hexCharToNat with
  | some l => Except.ok l
  | none => Except.error (IOErr.msg ("invalid hex char in " ++ s))

/-- Modelled from the spec: isAllBitSet (repository code outside src) — the
mask is the kernel's all-bits-set default exactly when every hex digit is f. -/
def isAllBitSet (l : List Nat) : Bool := l.all (fun b => b == 15)

/-- Modelled from the spec: retrieveIrqBannedCPUMasks (repository code
outside src) reads the irqbalance config and returns the value of its
IRQBALANCE_BANNED_CPUS= line (error when the file is missing). -/
def retrieveIrqBannedCPUMasks (fs : FS) (file : String) : Except IOErr String :=
  match fs.readPath file with
  | Except.error e => Except.error e
  | Except.ok content =>
    let pre := irqBalanceBannedCpus ++ "="
    match ((strSplitOnChar '\n' content).filterMap (fun l =>
      if strStartsWith l pre then some (strDrop l pre.toList.length) else none)).head? with
    | some v => Except.ok v
    | none => Except.ok ""

/-- RestoreIrqBalanceConfig: boot-time reconciliation. A live mask that is
not all-ones means no fresh reboot — skip. A missing config is ignored. With
no backup file yet, create it from the current banned value and stop. With a
backup equal to the current value, no-op; otherwise restore the config from
the backup (a service restart failure afterwards is only logged). -/
def RestoreIrqBalanceConfig
    (irqBalanceConfigFile irqBannedCPUConfigFile irqSmpAffinityProcFile : String)
    (fs : FS) : FS × Option IOErr :=
  match fs.readPath irqSmpAffinityProcFile with
  | Except.error e => (fs, some e)
  | Except.ok content =>
    let current := strTrim content
    let s := strIntercalate "" (strSplitOnChar ',' current)
    match mapHexCharToByte s with
    | Except.error e => (fs, some e)
    | Except.ok currentMaskArray =>
      if !isAllBitSet currentMaskArray then (fs, none)
      else
        match retrieveIrqBannedCPUMasks fs irqBalanceConfigFile with
        | Except.error _ => (fs, none)
        | Except.ok bannedCPUMasks =>
          if !fs.pathExists irqBannedCPUConfigFile then
            match fs.writeCreatePath irqBannedCPUConfigFile bannedCPUMasks with
            | Except.error e => (fs, some e)
            | Except.ok fs1 => (fs1, none)
          else
            match fs.readPath irqBannedCPUConfigFile with
            | Except.error e => (fs, some e)
            | Except.ok backup =>
              let origBannedCPUMasks := strTrim backup
              if bannedCPUMasks = origBannedCPUMasks then (fs, none)
              else
                match updateIrqBalanceConfigFile fs irqBalanceConfigFile origBannedCPUMasks with
                | (fs1, some e) => (fs1, some e)
                | (fs1, none) => (fs1, none)

/-! ## Hook orchestrator -/

/-- HighPerformanceHooks.PreStart: gate on shouldRunHooks, then apply in
order load-balancing disable, shared CPUs, IRQ balancing disable, CFS quota
disable, c-states, frequency governor; each step is gated by its own
annotation, and a failing step aborts the call with a wrapped error. -/
def PreStart (env : Env) (c : Container) (s : Sandbox) (fs : FS) : FS × Container × HookRes :=
  match shouldRunHooks c.spec s with
  | POr.panicked => (fs, c, HookRes.panicked)
  | POr.ok false => (fs, c, HookRes.ok)
  | POr.ok true =>
    match (if shouldCPULoadBalancingBeDisabled s.annotations
           then setCPULoadBalancing env c false fs
           else (fs, none)) with
    | (fs1, some e) => (fs1, c, HookRes.err (IOErr.wrapped "set CPU load balancing" e))
    | (fs1, none) =>
      match (if requestedSharedCPUs s.annotations c.name
             then setSharedCPUs env c s env.sharedCPUs fs1
             else (fs1, c, HookRes.ok)) with
      | (fs2, c2, HookRes.panicked) => (fs2, c2, HookRes.panicked)
      | (fs2, c2, HookRes.err e) => (fs2, c2, HookRes.err (IOErr.wrapped "set shared CPUs" e))
      | (fs2, c2, HookRes.ok) =>
        match (if shouldIRQLoadBalancingBeDisabled s.annotations
               then setIRQLoadBalancing env c2 false IrqSmpAffinityProcFile
                      env.irqBalanceConfigFile fs2
               else (fs2, none)) with
        | (fs3, some e) => (fs3, c2, HookRes.err (IOErr.wrapped "set IRQ load balancing" e))
        | (fs3, none) =>
          match (if shouldCPUQuotaBeDisabled s.annotations
                 then setCPUQuota env s.cgroupParent c2 fs3
                 else (fs3, none)) with
          | (fs4, some e) => (fs4, c2, HookRes.err (IOErr.wrapped "set CPU CFS quota" e))
          | (fs4, none) =>
            let cstates := shouldCStatesBeConfigured s.annotations
            match (if cstates.1 then
                     if cstates.2 = annotationEnable then
                       match setCPUPMQOSResumeLatency c2 "0" fs4 with
                       | (fs5, some e) =>
                         (fs5, some (IOErr.wrapped "set CPU PM QOS resume latency" e))
                       | (fs5, none) => (fs5, none)
                     else if cstates.2 = annotationDisable then
                       match setCPUPMQOSResumeLatency c2 "n/a" fs4 with
                       | (fs5, some e) =>
                         (fs5, some (IOErr.wrapped "set CPU PM QOS resume latency" e))
                       | (fs5, none) => (fs5, none)
                     else (fs4, some (IOErr.msg ("invalid annotation value " ++ cstates.2)))
                   else (fs4, none)) with
            | (fs5, some e) => (fs5, c2, HookRes.err e)
            | (fs5, none) =>
              let gov := shouldFreqGovernorBeConfigured s.annotations
              match (if gov.1 then setCPUFreqGovernor c2 gov.2 fs5 else (fs5, none)) with
              | (fs6, some e) => (fs6, c2, HookRes.err (IOErr.wrapped "set CPU scaling governor" e))
              | (fs6, none) => (fs6, c2, HookRes.ok)

/-- HighPerformanceHooks.PreStop: gate on shouldRunHooks, then re-enable IRQ
balancing and CPU load balancing, and restore the c-state and governor knobs
when their annotations are present. -/
def PreStop (env : Env) (c : Container) (s : Sandbox) (fs : FS) : FS × Container × HookRes :=
  match shouldRunHooks c.spec s with
  | POr.panicked => (fs, c, HookRes.panicked)
  | POr.ok false => (fs, c, HookRes.ok)
  | POr.ok true =>
    match (if shouldIRQLoadBalancingBeDisabled s.annotations
           then setIRQLoadBalancing env c true IrqSmpAffinityProcFile
                  env.irqBalanceConfigFile fs
           else (fs, none)) with
    | (fs1, some e) => (fs1, c, HookRes.err (IOErr.wrapped "set IRQ load balancing" e))
    | (fs1, none) =>
      match (if shouldCPULoadBalancingBeDisabled s.annotations
             then setCPULoadBalancing env c true fs1
             else (fs1, none)) with
      | (fs2, some e) => (fs2, c, HookRes.err (IOErr.wrapped "set CPU load balancing" e))
      | (fs2, none) =>
        match (if (shouldCStatesBeConfigured s.annotations).1
               then setCPUPMQOSResumeLatency c "" fs2
               else (fs2, none)) with
        | (fs3, some e) => (fs3, c, HookRes.err (IOErr.wrapped "set CPU PM QOS resume latency" e))
        | (fs3, none) =>
          match (if (shouldFreqGovernorBeConfigured s.annotations).1
                 then setCPUFreqGovernor c "" fs3
                 else (fs3, none)) with
          | (fs4, some e) => (fs4, c, HookRes.err (IOErr.wrapped "set CPU scaling governor" e))
          | (fs4, none) => (fs4, c, HookRes.ok)

/-! ## Concrete scenarios used by witnesses and counterexamples -/

/-- Env fixture: cgroup v2, the container's unified cgroup path fixed to
`cgPath`; collaborators unused by the exercised paths are inert. -/
def mkEnvV2 (cgPath : String) : Env :=
  { cgroupV2 := true
    parseCgroupFile := fun _ => Except.ok [("", cgPath)]
    updateIRQSmpAffinityMask := fun _ _ _ => Except.error IOErr.notExist
    isServiceEnabled := false
    irqBalanceBinaryInstalled := false
    oneshotRunErr := none
    containerCgroupAbsolutePath := fun _ _ _ => Except.error IOErr.notExist
    libctrSetUnlimitedQuota := fun _ _ _ fs => (fs, none)
    buildHierarchy := fun _ => Except.error IOErr.notExist
    irqBalanceConfigFile := "/etc/sysconfig/irqbalance"
    sharedCPUs := none }

/-- Container fixture with the given cpu list, whole-CPU shares (2048) and a
100000us period. -/
def mkCtr (cpus : String) : Container :=
  { id := "ctr1"
    name := "ctr1"
    spec :=
      { linux := some
          { resources := some
              { cpu := some { cpus := cpus, period := some 100000, shares := some 2048 } } }
        process := some { env := [] } }
    pid := Except.ok 42 }

/-- Scenario for the v2 rollback: a three-level hierarchy /a/b/c whose
cpuset.cpus.exclusive write at depth 2 (/a/b) has an injected fault. -/
def wFsRollback : FS := mkFS
  [ (("/sys/fs/cgroup/a", cpusetCpus), "0-3"),
    (("/sys/fs/cgroup/a", cpusetExclusive), "2-3"),
    (("/sys/fs/cgroup/a/b", cpusetCpus), "0-3"),
    (("/sys/fs/cgroup/a/b", cpusetExclusive), "2-3"),
    (("/sys/fs/cgroup/a/b/c", cpusetCpus), "0-3"),
    (("/sys/fs/cgroup/a/b/c", cpusetExclusive), ""),
    (("/sys/fs/cgroup/a/b/c", cpusetPartition), "member") ]
  [ ("/sys/fs/cgroup/a/b", cpusetExclusive) ]

/-- Scenario for the enable-path partition write: a fault-free single-level
hierarchy /a whose partition file currently reads "member". -/
def wFsEnable : FS := mkFS
  [ (("/sys/fs/cgroup/a", cpusetCpus), "0-3"),
    (("/sys/fs/cgroup/a", cpusetExclusive), "0-1"),
    (("/sys/fs/cgroup/a", cpusetPartition), "member") ] []

/-- Container fixture with explicit shares. -/
def mkCtrShares (cpus : String) (shares : Nat) : Container :=
  { id := "ctr1"
    name := "ctr1"
    spec :=
      { linux := some
          { resources := some
              { cpu := some { cpus := cpus, period := some 100000, shares := some shares } } }
        process := some { env := [] } }
    pid := Except.ok 42 }

/-- Sandbox fixture carrying every directive annotation, with a guaranteed
non-burstable, non-besteffort cgroup parent. -/
def wSandboxAllAnns : Sandbox :=
  { annotations :=
      [(annCPULoadBalancing, "disable"), (annCPUQuota, "disable"),
       (annIRQLoadBalancing, "disable"), (annCPUCStates, "enable"),
       (annCPUFreqGovernor, "performance"), (annCPUShared ++ "/ctr1", "enable")]
    cgroupParent := "/kubepods/pod1" }

/-- Cgroup hierarchy fixture: one pod directory with one container child. -/
def wHier : CgroupHierarchy :=
  { podPath := fun _ => "/sys/fs/cgroup/pod"
    ctrPath := fun _ => "/sys/fs/cgroup/pod/ctr" }

/-- Env fixture for the shared-cpu scenario: v2, resolving the hierarchy to
`wHier`. -/
def wEnvShared : Env := { mkEnvV2 "/a" with buildHierarchy := fun _ => Except.ok wHier }

/-- Filesystem fixture for the shared-cpu scenario: pod and container each
expose cpuset.cpus (currently the isolated cpus 2-3) and the v2 quota file. -/
def wFsShared : FS := mkFS
  [ (("/sys/fs/cgroup/pod", cpusetCpus), "2-3"),
    (("/sys/fs/cgroup/pod", cgroupV2Quota), "max 100000"),
    (("/sys/fs/cgroup/pod/ctr", cpusetCpus), "2-3"),
    (("/sys/fs/cgroup/pod/ctr", cgroupV2Quota), "max 100000") ] []

/-- Sandbox fixture with no annotations at all. -/
def wSandboxNoAnns : Sandbox := { annotations := [], cgroupParent := "/kubepods/pod1" }

/-- Filesystem fixture for the governor restore: live scaling_governor files
for cpus 0 and 1, no save files at all. -/
def wFsGov : FS := mkFS
  [ (("/sys/devices/system/cpu/cpu0/cpufreq", "scaling_governor"), "performance"),
    (("/sys/devices/system/cpu/cpu1/cpufreq", "scaling_governor"), "performance") ] []

/-- Filesystem fixture for the PM-QoS restore: live knobs for cpus 0 and 1,
a save file only for cpu 1 — the lowest-iterated cpu 0 has none. -/
def wFsPmqos : FS := mkFS
  [ (("/sys/devices/system/cpu/cpu0/power", "pm_qos_resume_latency_us"), "0"),
    (("/sys/devices/system/cpu/cpu1/power", "pm_qos_resume_latency_us"), "0"),
    (("/var/run/crio/cpu/cpu1/power", "pm_qos_resume_latency_us"), "20") ] []

/-- Sandbox fixture carrying only the c-states annotation with value `v`. -/
def wSandboxCStates (v : String) : Sandbox :=
  { annotations := [(annCPUCStates, v)], cgroupParent := "/kubepods/pod1" }

/-- Filesystem fixture for the boot reconciliation: the live affinity mask
reads 00ff (not the all-ones default). -/
def wFsIrq : FS := mkFS [ (("/proc/irq/default_smp_affinity", ""), "00ff\n") ] []

/-- Container fixture whose CPU shares pointer is nil. -/
def wCtrNoShares : Container :=
  { id := "ctr1"
    name := "ctr1"
    spec :=
      { linux := some
          { resources := some
              { cpu := some { cpus := "0-1", period := some 100000, shares := none } } }
        process := some { env := [] } }
    pid := Except.ok 42 }

/-- Container fixture whose CFS period pointer is nil. -/
def wCtrNoPeriod : Container :=
  { id := "ctr1"
    name := "ctr1"
    spec :=
      { linux := some
          { resources := some
              { cpu := some { cpus := "2-3", period := none, shares := some 2048 } } }
        process := some { env := [] } }
    pid := Except.ok 42 }

/-! ## Frame lemmas for the filesystem operations -/

theorem writeExisting_ok_facts {fs fs' : FS} {d f v : String}
    (h : fs.writeExisting d f v = Except.ok fs') :
    fs'.files (d, f) = some v ∧ (∀ k, k ≠ (d, f) → fs'.files k = fs.files k) ∧
    fs'.failing = fs.failing ∧ fs.failing (d, f) = false ∧ fs.files (d, f) ≠ none := by
  unfold FS.writeExisting at h
  rcases hfp : fs.files (d, f) with _ | w
  · simp only [hfp] at h; exact absurd h (by simp)
  · simp only [hfp] at h
    by_cases hfail : fs.failing (d, f)
    · rw [if_pos hfail] at h; simp at h
    · rw [if_neg hfail] at h
      simp only [Except.ok.injEq] at h
      subst h
      refine ⟨by simp, fun k hk => ?_, rfl, by simpa using hfail, by simp [hfp]⟩
      simp [if_neg hk]

theorem writeExisting_err_facts {fs : FS} {d f v : String} {e : IOErr}
    (h : fs.writeExisting d f v = Except.error e) :
    e = IOErr.notExist ∨ (e = IOErr.injected d f ∧ fs.failing (d, f) = true) := by
  unfold FS.writeExisting at h
  rcases hfp : fs.files (d, f) with _ | w
  · simp only [hfp, Except.error.injEq] at h
    exact Or.inl h.symm
  · simp only [hfp] at h
    by_cases hfail : fs.failing (d, f)
    · rw [if_pos hfail] at h
      simp only [Except.error.injEq] at h
      exact Or.inr ⟨h.symm, hfail⟩
    · rw [if_neg hfail] at h; simp at h

theorem addOrRemove_ok_facts {fs fs' : FS} {p f old : String} {cpus : CPUSet} {add : Bool}
    (h : addOrRemoveCpusetFromFile fs p f cpus add = Except.ok (old, fs')) :
    fs.files (p, f) = some old ∧ fs'.files (p, f) ≠ none ∧
    (∀ k, k ≠ (p, f) → fs'.files k = fs.files k) ∧
    fs'.failing = fs.failing ∧ fs.failing (p, f) = false := by
  unfold addOrRemoveCpusetFromFile FS.read at h
  rcases hfp : fs.files (p, f) with _ | w
  · simp only [hfp] at h; exact absurd h (by simp)
  · simp only [hfp] at h
    rcases hparse : CPUSet.parse (strTrim w) with _ | cur
    · simp only [hparse] at h; exact absurd h (by simp)
    · simp only [hparse] at h
      rcases hw : fs.writeExisting p f
          ((if add then cur.union cpus else cur.difference cpus).render) with e2 | fs2
      · simp only [hw] at h; exact absurd h (by simp)
      · simp only [hw, Except.ok.injEq, Prod.mk.injEq] at h
        obtain ⟨h1, h2⟩ := h
        subst h1; subst h2
        obtain ⟨hw1, hw2, hw3, hw4, _⟩ := writeExisting_ok_facts hw
        exact ⟨by simp [hfp], by simp [hw1], hw2, hw3, hw4⟩

theorem addOrRemove_err_facts {fs : FS} {p f : String} {cpus : CPUSet} {add : Bool} {e : IOErr}
    (h : addOrRemoveCpusetFromFile fs p f cpus add = Except.error e) :
    ∀ d' f', e = IOErr.injected d' f' → fs.failing (d', f') = true := by
  unfold addOrRemoveCpusetFromFile FS.read at h
  rcases hfp : fs.files (p, f) with _ | w
  · simp only [hfp, Except.error.injEq] at h
    subst h; intro d' f' h'; cases h'
  · simp only [hfp] at h
    rcases hparse : CPUSet.parse (strTrim w) with _ | cur
    · simp only [hparse, Except.error.injEq] at h
      subst h; intro d' f' h'; cases h'
    · simp only [hparse] at h
      rcases hw : fs.writeExisting p f
          ((if add then cur.union cpus else cur.difference cpus).render) with e2 | fs2
      · simp only [hw, Except.error.injEq] at h
        subst h
        intro d' f' h'
        rcases writeExisting_err_facts hw with h1 | ⟨h1, h2⟩
        · rw [h1] at h'; cases h'
        · rw [h1] at h'; cases h'; exact h2
      · simp only [hw] at h; exact absurd h (by simp)

theorem writeExisting_succeeds {fs : FS} {d f : String} {w : String}
    (hw : fs.files (d, f) = some w) (hfail : fs.failing (d, f) = false) (v : String) :
    fs.writeExisting d f v =
      Except.ok { fs with files := fun k => if k = (d, f) then some v else fs.files k } := by
  unfold FS.writeExisting
  simp [hw, hfail]

theorem v2FixCpus_ok_facts {cpus : CPUSet} {enable : Bool} {p : String} {fs fs1 : FS}
    (h : v2FixCpus cpus enable p fs = Except.ok fs1) :
    (∀ k, k ≠ (p, cpusetCpus) → fs1.files k = fs.files k) ∧ fs1.failing = fs.failing := by
  unfold v2FixCpus at h
  by_cases he : enable = true
  · rw [if_pos he] at h
    simp only [Except.ok.injEq] at h
    subst h
    exact ⟨fun _ _ => rfl, rfl⟩
  · rw [if_neg he] at h
    rcases haor : addOrRemoveCpusetFromFile fs p cpusetCpus cpus true with e | ⟨old, fs2⟩
    · simp only [haor] at h; exact absurd h (by simp)
    · simp only [haor, Except.ok.injEq] at h
      subst h
      obtain ⟨_, _, hframe, hfail, _⟩ := addOrRemove_ok_facts haor
      exact ⟨hframe, hfail⟩

theorem v2FixCpus_err_facts {cpus : CPUSet} {enable : Bool} {p : String} {fs : FS} {e : IOErr}
    (h : v2FixCpus cpus enable p fs = Except.error e) :
    ∀ d' f', e = IOErr.injected d' f' → fs.failing (d', f') = true := by
  unfold v2FixCpus at h
  by_cases he : enable = true
  · rw [if_pos he] at h; simp at h
  · rw [if_neg he] at h
    rcases haor : addOrRemoveCpusetFromFile fs p cpusetCpus cpus true with e2 | r
    · simp only [haor, Except.error.injEq] at h
      subst h
      exact addOrRemove_err_facts haor
    · simp only [haor] at h; exact absurd h (by simp)

theorem key_ne_of_file_ne {d1 d2 f1 f2 : String} (h : f1 ≠ f2) : (d1, f1) ≠ (d2, f2) :=
  fun hk => h (congrArg Prod.snd hk)

theorem excl_ne_cpus : cpusetExclusive ≠ cpusetCpus := by decide

theorem revertAll_failing (vals : List (String × String)) :
    ∀ fs : FS, (revertAll vals fs).failing = fs.failing := by
  induction vals with
  | nil => intro fs; rfl
  | cons pv rest ih =>
    intro fs
    simp only [revertAll]
    rcases hw : fs.writeExisting pv.1 cpusetExclusive pv.2 with e | fs2
    · simp only [hw]; exact ih fs
    · simp only [hw]
      rw [ih fs2, (writeExisting_ok_facts hw).2.2.1]

theorem revertAll_append (l1 l2 : List (String × String)) :
    ∀ fs, revertAll (l1 ++ l2) fs = revertAll l2 (revertAll l1 fs) := by
  induction l1 with
  | nil => intro fs; rfl
  | cons pv rest ih =>
    intro fs
    simp only [List.cons_append, revertAll]
    rcases hw : fs.writeExisting pv.1 cpusetExclusive pv.2 with e | fs2 <;>
      simp only [hw] <;> apply ih

theorem v2Loop_facts (cpus : CPUSet) (enable : Bool) (ds : List String) :
    ∀ (cp : String) (fs : FS),
      (v2Loop cpus enable ds cp fs).1.failing = fs.failing ∧
      (∀ dir,
        (revertAll (v2Loop cpus enable ds cp fs).2.1 (v2Loop cpus enable ds cp fs).1).files
            (dir, cpusetExclusive) =
          fs.files (dir, cpusetExclusive)) ∧
      (∀ e, (v2Loop cpus enable ds cp fs).2.2 = some e →
        ∀ d' f', e = IOErr.injected d' f' → fs.failing (d', f') = true) := by
  induction ds with
  | nil =>
    intro cp fs
    refine ⟨rfl, fun dir => rfl, fun e he => ?_⟩
    simp [v2Loop] at he
  | cons d rest ih =>
    intro cp fs
    by_cases hd : d = ""
    · simp only [v2Loop, if_pos hd]
      exact ih cp fs
    · simp only [v2Loop, if_neg hd]
      rcases hfix : v2FixCpus cpus enable (cp ++ "/" ++ d) fs with e | fs1
      · simp only [hfix]
        refine ⟨by simp, fun dir => rfl, ?_⟩
        intro e' he'
        have he2 : e = e' := by simpa using he'
        subst he2
        exact v2FixCpus_err_facts hfix
      · simp only [hfix]
        obtain ⟨hfixframe, hfixfail⟩ := v2FixCpus_ok_facts hfix
        rcases haor : addOrRemoveCpusetFromFile fs1 (cp ++ "/" ++ d) cpusetExclusive cpus
            (!enable) with e | ⟨old, fs2⟩
        · simp only [haor]
          refine ⟨hfixfail, ?_, ?_⟩
          · intro dir
            exact hfixframe (dir, cpusetExclusive) (key_ne_of_file_ne excl_ne_cpus)
          · intro e' he'
            have he2 : e = e' := by simpa using he'
            subst he2
            intro d' f' hinj
            rw [← hfixfail]
            exact addOrRemove_err_facts haor d' f' hinj
        · simp only [haor]
          obtain ⟨haor1, haor2, haor3, haor4, haor5⟩ := addOrRemove_ok_facts haor
          obtain ⟨ih1, ih2, ih3⟩ := ih (cp ++ "/" ++ d) fs2
          refine ⟨?_, ?_, ?_⟩
          · rw [ih1, haor4, hfixfail]
          · intro dir
            rw [revertAll_append]
            have hgfiles :
                (revertAll (v2Loop cpus enable rest (cp ++ "/" ++ d) fs2).2.1
                    (v2Loop cpus enable rest (cp ++ "/" ++ d) fs2).1).files
                    (cp ++ "/" ++ d, cpusetExclusive) ≠ none := by
              rw [ih2 (cp ++ "/" ++ d)]
              exact haor2
            rcases hgw :
                (revertAll (v2Loop cpus enable rest (cp ++ "/" ++ d) fs2).2.1
                    (v2Loop cpus enable rest (cp ++ "/" ++ d) fs2).1).files
                    (cp ++ "/" ++ d, cpusetExclusive) with _ | w
            · exact absurd hgw hgfiles
            · have hgfail :
                  (revertAll (v2Loop cpus enable rest (cp ++ "/" ++ d) fs2).2.1
                      (v2Loop cpus enable rest (cp ++ "/" ++ d) fs2).1).failing
                      (cp ++ "/" ++ d, cpusetExclusive) = false := by
                rw [revertAll_failing, ih1, haor4]
                exact haor5
              have hsucc := writeExisting_succeeds hgw hgfail old
              simp only [revertAll, hsucc]
              by_cases hdir : dir = cp ++ "/" ++ d
              · rw [hdir, if_pos (rfl :
                    ((cp ++ "/" ++ d, cpusetExclusive) : String × String) =
                      (cp ++ "/" ++ d, cpusetExclusive)),
                  ← hfixframe (cp ++ "/" ++ d, cpusetExclusive) (key_ne_of_file_ne excl_ne_cpus),
                  haor1]
              · have hk : (dir, cpusetExclusive) ≠ (cp ++ "/" ++ d, cpusetExclusive) :=
                  fun hkk => hdir (congrArg Prod.fst hkk)
                rw [if_neg hk, ih2 dir, haor3 (dir, cpusetExclusive) hk,
                  hfixframe (dir, cpusetExclusive) (key_ne_of_file_ne excl_ne_cpus)]
          · intro e' he' d' f' hinj
            have := ih3 e' he' d' f' hinj
            rw [haor4, hfixfail] at this
            exact this

theorem cpusetOfContainer_err_not_injected {env : Env} {c : Container} {e : IOErr}
    (h : cpusetOfContainer env c = Except.error e) : ∀ d f, e ≠ IOErr.injected d f := by
  unfold cpusetOfContainer at h
  rcases hpid : c.pid with e0 | pid
  · simp only [hpid, Except.error.injEq] at h
    subst h; intro d f hh; cases hh
  · simp only [hpid] at h
    rcases hpcf : env.parseCgroupFile pid with e1 | controllers
    · simp only [hpcf, Except.error.injEq] at h
      subst h; intro d f hh; cases hh
    · simp only [hpcf] at h
      rcases hlk : lookupStr controllers (if env.cgroupV2 then "" else "cpuset") with _ | v
      · simp only [hlk, Except.error.injEq] at h
        subst h; intro d f hh; cases hh
      · simp only [hlk] at h
        exact absurd h (by simp)

/-- C1: in setCPULoadBalancingV2, whenever the call returns an error — in
particular when a step after the first fails at some hierarchy depth — every
cpuset.cpus.exclusive file in the whole tree holds its pre-call value again
(the values captured before each write were restored best effort), and the
returned error is the original one from the failed step: a fault injected at
a marked (dir, file) pair surfaces only as that pair's own injected error,
never as a rollback error (rollback failures are swallowed). -/
theorem setCPULoadBalancingV2_error_reverts_exclusive
    (env : Env) (c : Container) (enable : Bool) (fs : FS) (e : IOErr)
    (hrun : (setCPULoadBalancingV2 env c enable fs).2 = some e) :
    (∀ dir, (setCPULoadBalancingV2 env c enable fs).1.files (dir, cpusetExclusive) =
        fs.files (dir, cpusetExclusive)) ∧
    (∀ d f, e = IOErr.injected d f → fs.failing (d, f) = true) := by
  unfold setCPULoadBalancingV2 at hrun ⊢
  rcases hparse : CPUSet.parse (specCPUs c.spec) with _ | cpus
  · simp only [hparse] at hrun ⊢
    have he : IOErr.parseErr (specCPUs c.spec) = e := by simpa using hrun
    subst he
    exact ⟨by simp, fun d f hh => by cases hh⟩
  · simp only [hparse] at hrun ⊢
    rcases hcp : cpusetOfContainer env c with e0 | cgPath
    · simp only [hcp] at hrun ⊢
      have he : e0 = e := by simpa using hrun
      subst he
      exact ⟨by simp, fun d f hh => absurd hh (cpusetOfContainer_err_not_injected hcp d f)⟩
    · simp only [hcp] at hrun ⊢
      obtain ⟨l1, l2, l3⟩ := v2Loop_facts cpus enable (strSplitOnChar '/' cgPath) cgroupMountPoint fs
      rcases hres : (v2Loop cpus enable (strSplitOnChar '/' cgPath) cgroupMountPoint fs).2.2 with _ | e1
      · simp only [hres] at hrun ⊢
        rcases hw : (v2Loop cpus enable (strSplitOnChar '/' cgPath) cgroupMountPoint fs).1.writeExisting
            (joinPath cgroupMountPoint cgPath) cpusetPartition "isolated" with e2 | fs2
        · simp only [hw] at hrun ⊢
          by_cases hcase : e2 = IOErr.notExist ∧ enable = true
          · rw [if_pos hcase] at hrun
            simp at hrun
          · rw [if_neg hcase] at hrun ⊢
            have he : e2 = e := by simpa using hrun
            subst he
            refine ⟨l2, ?_⟩
            intro d f hinj
            rcases writeExisting_err_facts hw with h1 | ⟨h1, h2⟩
            · rw [h1] at hinj; cases hinj
            · rw [h1] at hinj
              cases hinj
              rw [l1] at h2
              exact h2
        · simp only [hw] at hrun
          simp at hrun
      · simp only [hres] at hrun ⊢
        have he : e1 = e := by simpa using hrun
        subst he
        exact ⟨l2, l3 e1 hres⟩

/-- Witness for the rollback theorem: disabling load balancing for cpus 0-1
over /a/b/c with an injected failure at depth 2 returns exactly that injected
error, and the depth-1 directory's cpuset.cpus.exclusive is back to its
pre-call value. -/
theorem setCPULoadBalancingV2_error_reverts_exclusive_witness :
    (setCPULoadBalancingV2 (mkEnvV2 "/a/b/c") (mkCtr "0-1") false wFsRollback).2 =
        some (IOErr.injected "/sys/fs/cgroup/a/b" cpusetExclusive) ∧
    (setCPULoadBalancingV2 (mkEnvV2 "/a/b/c") (mkCtr "0-1") false wFsRollback).1.files
        ("/sys/fs/cgroup/a", cpusetExclusive) =
      wFsRollback.files ("/sys/fs/cgroup/a", cpusetExclusive) :=
  ⟨by decide,
   (setCPULoadBalancingV2_error_reverts_exclusive (mkEnvV2 "/a/b/c") (mkCtr "0-1") false
      wFsRollback (IOErr.injected "/sys/fs/cgroup/a/b" cpusetExclusive) (by decide)).1
     "/sys/fs/cgroup/a"⟩

/-- Counterexample to the claim that the enable case skips the leaf partition
write: re-enabling load balancing over a fault-free single-level hierarchy
succeeds, yet the leaf's cpuset.cpus.partition, previously "member", has been
overwritten with "isolated" — the write was performed, not skipped. -/
theorem setCPULoadBalancingV2_enable_writes_partition_cex :
    (setCPULoadBalancingV2 (mkEnvV2 "/a") (mkCtr "0") true wFsEnable).2 = none ∧
    wFsEnable.files ("/sys/fs/cgroup/a", cpusetPartition) = some "member" ∧
    (setCPULoadBalancingV2 (mkEnvV2 "/a") (mkCtr "0") true wFsEnable).1.files
        ("/sys/fs/cgroup/a", cpusetPartition) = some "isolated" := by
  refine ⟨by decide, by decide, by decide⟩

/-- C2 (amended): in the enable case, after all per-level removals succeed,
setCPULoadBalancingV2 still attempts the cpuset.cpus.partition = isolated
write on the leaf; when the leaf still exists (and the write is not faulted)
the file really is overwritten with "isolated", and only when the leaf no
longer exists is the missing-directory failure treated as success, returning
the post-loop state unchanged. -/
theorem setCPULoadBalancingV2_enable_partition_semantics
    (env : Env) (c : Container) (fs : FS) (cpus : CPUSet) (cgPath : String)
    (hparse : CPUSet.parse (specCPUs c.spec) = some cpus)
    (hcp : cpusetOfContainer env c = Except.ok cgPath)
    (hloop : (v2Loop cpus true (strSplitOnChar '/' cgPath) cgroupMountPoint fs).2.2 = none) :
    ((v2Loop cpus true (strSplitOnChar '/' cgPath) cgroupMountPoint fs).1.files
        (joinPath cgroupMountPoint cgPath, cpusetPartition) = none →
      setCPULoadBalancingV2 env c true fs =
        ((v2Loop cpus true (strSplitOnChar '/' cgPath) cgroupMountPoint fs).1, none)) ∧
    ((v2Loop cpus true (strSplitOnChar '/' cgPath) cgroupMountPoint fs).1.files
        (joinPath cgroupMountPoint cgPath, cpusetPartition) ≠ none →
      (v2Loop cpus true (strSplitOnChar '/' cgPath) cgroupMountPoint fs).1.failing
        (joinPath cgroupMountPoint cgPath, cpusetPartition) = false →
      (setCPULoadBalancingV2 env c true fs).2 = none ∧
      (setCPULoadBalancingV2 env c true fs).1.files
          (joinPath cgroupMountPoint cgPath, cpusetPartition) = some "isolated") := by
  unfold setCPULoadBalancingV2
  simp only [hparse, hcp, hloop]
  constructor
  · intro hnone
    unfold FS.writeExisting
    simp only [hnone]
    rfl
  · intro hsome hfail
    rcases hgw : (v2Loop cpus true (strSplitOnChar '/' cgPath) cgroupMountPoint fs).1.files
        (joinPath cgroupMountPoint cgPath, cpusetPartition) with _ | w
    · exact absurd hgw hsome
    · rw [writeExisting_succeeds hgw hfail "isolated"]
      refine ⟨rfl, ?_⟩
      simp

/-- Witness for the amended partition-write semantics, on the same concrete
single-level scenario as the counterexample. -/
theorem setCPULoadBalancingV2_enable_partition_semantics_witness :
    CPUSet.parse (specCPUs (mkCtr "0").spec) = some [0] ∧
    ((v2Loop [0] true (strSplitOnChar '/' "/a") cgroupMountPoint wFsEnable).1.files
        (joinPath cgroupMountPoint "/a", cpusetPartition) ≠ none →
      (v2Loop [0] true (strSplitOnChar '/' "/a") cgroupMountPoint wFsEnable).1.failing
        (joinPath cgroupMountPoint "/a", cpusetPartition) = false →
      (setCPULoadBalancingV2 (mkEnvV2 "/a") (mkCtr "0") true wFsEnable).2 = none ∧
      (setCPULoadBalancingV2 (mkEnvV2 "/a") (mkCtr "0") true wFsEnable).1.files
          (joinPath cgroupMountPoint "/a", cpusetPartition) = some "isolated") :=
  ⟨by decide,
   (setCPULoadBalancingV2_enable_partition_semantics (mkEnvV2 "/a") (mkCtr "0") wFsEnable
      [0] "/a" (by decide) (by decide) (by decide)).2⟩

/-- C3: a container of a burstable pod, of a besteffort pod, or whose CPU
shares are present but not an exact multiple of 1024 is ineligible: PreStart
and PreStop return success immediately, leaving the filesystem (and the
container) untouched, regardless of which annotations are present. -/
theorem preStart_preStop_noop_for_ineligible
    (env : Env) (c : Container) (s : Sandbox) (fs : FS)
    (h : isCgroupParentBurstable s = true ∨ isCgroupParentBestEffort s = true ∨
      isContainerRequestWholeCPU c.spec = POr.ok false) :
    PreStart env c s fs = (fs, c, HookRes.ok) ∧ PreStop env c s fs = (fs, c, HookRes.ok) := by
  have hrun : shouldRunHooks c.spec s = POr.ok false := by
    unfold shouldRunHooks
    by_cases hb : isCgroupParentBurstable s = true
    · rw [if_pos hb]
    · rw [if_neg hb]
      by_cases he : isCgroupParentBestEffort s = true
      · rw [if_pos he]
      · rw [if_neg he]
        rcases h with h | h | h
        · exact absurd h hb
        · exact absurd h he
        · rw [h]
  constructor
  · unfold PreStart
    rw [hrun]
  · unfold PreStop
    rw [hrun]

/-- Witness for the ineligibility no-op: CPU shares 1500 is not a multiple of
1024, so PreStart returns success with no writes even though every directive
annotation is present. -/
theorem preStart_preStop_noop_for_ineligible_witness :
    isContainerRequestWholeCPU (mkCtrShares "0-1" 1500).spec = POr.ok false ∧
    PreStart (mkEnvV2 "/a") (mkCtrShares "0-1" 1500) wSandboxAllAnns wFsEnable =
      (wFsEnable, mkCtrShares "0-1" 1500, HookRes.ok) :=
  ⟨by decide,
   (preStart_preStop_noop_for_ineligible (mkEnvV2 "/a") (mkCtrShares "0-1" 1500)
      wSandboxAllAnns wFsEnable (Or.inr (Or.inr (by decide)))).1⟩

/-- C4: the CFS quota computed for a cpuset is
cpuCount * 1000 * period / 1000, i.e. exactly cpuCount * period, for every
cpuset and period; in particular isolated {2,3} with shared {0,1} and period
100000 yields 400000, and setSharedCPUs writes that value verbatim to the
version-appropriate quota file at both pod and container scope. -/
theorem calculateCFSQuota_formula_and_write :
    (∀ (cpus : CPUSet) (p : Int),
      calculateCFSQuota cpus p = Except.ok (Int.ofNat cpus.size * p)) ∧
    calculateCFSQuota (CPUSet.union [2, 3] [0, 1]) 100000 = Except.ok 400000 ∧
    (setSharedCPUs wEnvShared (mkCtr "2-3") wSandboxNoAnns (some [0, 1]) wFsShared).2.2 =
      HookRes.ok ∧
    (setSharedCPUs wEnvShared (mkCtr "2-3") wSandboxNoAnns (some [0, 1]) wFsShared).1.files
        ("/sys/fs/cgroup/pod", quotaFile wEnvShared) = some "400000" ∧
    (setSharedCPUs wEnvShared (mkCtr "2-3") wSandboxNoAnns (some [0, 1]) wFsShared).1.files
        ("/sys/fs/cgroup/pod/ctr", quotaFile wEnvShared) = some "400000" := by
  refine ⟨?_, by decide, by decide, by decide, by decide⟩
  intro cpus p
  unfold calculateCFSQuota milliCPUToCPU
  rw [show Int.ofNat cpus.size * 1000 * p = 1000 * (Int.ofNat cpus.size * p) by ring,
    Int.mul_ediv_cancel_left _ (by norm_num : (1000 : Int) ≠ 0)]

theorem writeCreate_ok_facts {fs fs' : FS} {d f v : String}
    (h : fs.writeCreate d f v = Except.ok fs') :
    fs'.files (d, f) = some v ∧ (∀ k, k ≠ (d, f) → fs'.files k = fs.files k) ∧
    fs'.failing = fs.failing := by
  unfold FS.writeCreate at h
  by_cases hfail : fs.failing (d, f)
  · rw [if_pos hfail] at h; simp at h
  · rw [if_neg hfail] at h
    simp only [Except.ok.injEq] at h
    subst h
    exact ⟨by simp, fun k hk => by simp [if_neg hk], rfl⟩

theorem remove_ok_facts {fs fs' : FS} {d f : String}
    (h : fs.remove d f = Except.ok fs') :
    fs'.files (d, f) = none ∧ (∀ k, k ≠ (d, f) → fs'.files k = fs.files k) ∧
    fs'.failing = fs.failing := by
  unfold FS.remove at h
  rcases hfp : fs.files (d, f) with _ | w
  · simp only [hfp] at h; exact absurd h (by simp)
  · simp only [hfp] at h
    simp only [Except.ok.injEq] at h
    subst h
    exact ⟨by simp, fun k hk => by simp [if_neg hk], rfl⟩

theorem governorLoop_restore_absent_frame (cpuDir cpuSaveDir : String) (l : List Nat) :
    ∀ (fs : FS) (k : String × String),
      (∀ n ∈ l, k ≠ (cpuDir ++ "/cpu" ++ Nat.repr n ++ "/cpufreq", "scaling_governor")) →
      fs.files k = none →
      ((governorLoop "" cpuDir cpuSaveDir l fs).1).files k = none := by
  have hne : ¬(("" : String) ≠ "") := fun hh => hh rfl
  induction l with
  | nil => intro fs k _ h; exact h
  | cons cpu rest ih =>
    intro fs k hk h
    simp only [governorLoop, if_neg hne]
    rcases hr : fs.read (cpuSaveDir ++ "/cpu" ++ Nat.repr cpu ++ "/cpufreq")
        "scaling_governor" with e | v
    · simp only [hr]
      by_cases he : e = IOErr.notExist
      · rw [if_pos he]; exact h
      · rw [if_neg he]; exact h
    · simp only [hr]
      rcases hw : fs.writeCreate (cpuDir ++ "/cpu" ++ Nat.repr cpu ++ "/cpufreq")
          "scaling_governor" v with e | fsa
      · simp only [hw]; exact h
      · simp only [hw]
        obtain ⟨hw1, hw2, hw3⟩ := writeCreate_ok_facts hw
        have hfa : fsa.files k = none := by
          rw [hw2 k (hk cpu (List.mem_cons_self cpu rest))]; exact h
        rcases hrm : fsa.remove (cpuSaveDir ++ "/cpu" ++ Nat.repr cpu ++ "/cpufreq")
            "scaling_governor" with e | fsb
        · simp only [hrm]; exact hfa
        · simp only [hrm]
          obtain ⟨hm1, hm2, hm3⟩ := remove_ok_facts hrm
          have hfb : fsb.files k = none := by
            by_cases hks : k = (cpuSaveDir ++ "/cpu" ++ Nat.repr cpu ++ "/cpufreq",
                "scaling_governor")
            · rw [hks]; exact hm1
            · rw [hm2 k hks]; exact hfa
          exact ih fsb k (fun n hn => hk n (List.mem_cons_of_mem cpu hn)) hfb

/-- C5: the governor restore path (empty new value) is idempotent. When no
save file exists for the container's cpus the call succeeds without touching
the filesystem; and whenever a restore call succeeds, running it again
succeeds and performs no write at all — the state is already fixed. The
separation hypothesis records that the live sysfs tree and the save
directory do not alias. -/
theorem governor_restore_idempotent
    (c : Container) (cpuDir cpuSaveDir : String) (fs fs1 : FS) (cpus : CPUSet)
    (hspec : cpuSpecMissing c.spec = false)
    (hparse : CPUSet.parse (specCPUs c.spec) = some cpus)
    (hsep : ∀ n ∈ cpus, ∀ m ∈ cpus,
      (cpuDir ++ "/cpu" ++ Nat.repr n ++ "/cpufreq" : String) ≠
        cpuSaveDir ++ "/cpu" ++ Nat.repr m ++ "/cpufreq") :
    ((∀ n ∈ cpus,
        fs.files (cpuSaveDir ++ "/cpu" ++ Nat.repr n ++ "/cpufreq", "scaling_governor") = none) →
      doSetCPUFreqGovernor c "" cpuDir cpuSaveDir fs = (fs, none)) ∧
    (doSetCPUFreqGovernor c "" cpuDir cpuSaveDir fs = (fs1, none) →
      doSetCPUFreqGovernor c "" cpuDir cpuSaveDir fs1 = (fs1, none)) := by
  have hne : ¬(("" : String) ≠ "") := fun hh => hh rfl
  have hfalse : ¬(cpuSpecMissing c.spec = true) := by rw [hspec]; simp
  constructor
  · intro habs
    unfold doSetCPUFreqGovernor
    rw [if_neg hfalse, hparse]
    cases cpus with
    | nil => rfl
    | cons a rest =>
      have hread : FS.read fs (cpuSaveDir ++ "/cpu" ++ Nat.repr a ++ "/cpufreq")
          "scaling_governor" = Except.error IOErr.notExist := by
        unfold FS.read
        rw [habs a (List.mem_cons_self a rest)]
      simp only [governorLoop, if_neg hne, hread]
      simp
  · intro hfirst
    unfold doSetCPUFreqGovernor at hfirst ⊢
    rw [if_neg hfalse, hparse] at hfirst ⊢
    cases cpus with
    | nil =>
      have h1 : fs = fs1 := congrArg Prod.fst hfirst
      rw [← h1]
      rfl
    | cons a rest =>
      simp only [governorLoop, if_neg hne] at hfirst ⊢
      rcases hr : fs.read (cpuSaveDir ++ "/cpu" ++ Nat.repr a ++ "/cpufreq")
          "scaling_governor" with e | v
      · simp only [hr] at hfirst
        by_cases he : e = IOErr.notExist
        · rw [if_pos he] at hfirst
          have h1 : fs = fs1 := congrArg Prod.fst hfirst
          rw [← h1]
          simp only [hr, if_pos he]
        · rw [if_neg he] at hfirst
          exact absurd (congrArg Prod.snd hfirst) (by simp)
      · simp only [hr] at hfirst
        rcases hw : fs.writeCreate (cpuDir ++ "/cpu" ++ Nat.repr a ++ "/cpufreq")
            "scaling_governor" v with e | fsa
        · simp only [hw] at hfirst
          exact absurd (congrArg Prod.snd hfirst) (by simp)
        · simp only [hw] at hfirst
          rcases hrm : fsa.remove (cpuSaveDir ++ "/cpu" ++ Nat.repr a ++ "/cpufreq")
              "scaling_governor" with e | fsb
          · simp only [hrm] at hfirst
            exact absurd (congrArg Prod.snd hfirst) (by simp)
          · simp only [hrm] at hfirst
            have hfb : fsb.files (cpuSaveDir ++ "/cpu" ++ Nat.repr a ++ "/cpufreq",
                "scaling_governor") = none := (remove_ok_facts hrm).1
            have hfs1 : fs1.files (cpuSaveDir ++ "/cpu" ++ Nat.repr a ++ "/cpufreq",
                "scaling_governor") = none := by
              have := governorLoop_restore_absent_frame cpuDir cpuSaveDir rest fsb
                (cpuSaveDir ++ "/cpu" ++ Nat.repr a ++ "/cpufreq", "scaling_governor")
                (fun n hn => by
                  have hne2 := hsep n (List.mem_cons_of_mem a hn) a (List.mem_cons_self a rest)
                  exact fun hkk => hne2 (congrArg Prod.fst hkk).symm)
                hfb
              rw [congrArg Prod.fst hfirst] at this
              exact this
            have hread1 : FS.read fs1 (cpuSaveDir ++ "/cpu" ++ Nat.repr a ++ "/cpufreq")
                "scaling_governor" = Except.error IOErr.notExist := by
              unfold FS.read
              rw [hfs1]
            simp only [hread1]
            simp

/-- Witness for the idempotent governor restore: with no save files present,
the restore call over cpus 0-1 succeeds and leaves the state untouched. -/
theorem governor_restore_idempotent_witness :
    cpuSpecMissing (mkCtr "0-1").spec = false ∧
    doSetCPUFreqGovernor (mkCtr "0-1") "" sysCPUDir sysCPUSaveDir wFsGov = (wFsGov, none) :=
  ⟨by decide,
   (governor_restore_idempotent (mkCtr "0-1") sysCPUDir sysCPUSaveDir wFsGov wFsGov
      [0, 1] (by decide) (by decide) (by decide)).1 (by decide)⟩

/-- C9: in the PM-QoS restore path, a missing save file for the first
(lowest) iterated cpu makes the whole call return success immediately with
the state untouched — in particular later cpus' live knobs are not restored
and their save files are not deleted. -/
theorem pmqos_restore_missing_save_aborts_loop
    (c : Container) (cpuDir cpuSaveDir : String) (fs : FS) (a : Nat) (rest : List Nat)
    (hspec : cpuSpecMissing c.spec = false)
    (hparse : CPUSet.parse (specCPUs c.spec) = some (a :: rest))
    (habs : fs.files (cpuSaveDir ++ "/cpu" ++ Nat.repr a ++ "/power",
        "pm_qos_resume_latency_us") = none) :
    doSetCPUPMQOSResumeLatency c "" cpuDir cpuSaveDir fs = (fs, none) := by
  have hne : ¬(("" : String) ≠ "") := fun hh => hh rfl
  have hfalse : ¬(cpuSpecMissing c.spec = true) := by rw [hspec]; simp
  unfold doSetCPUPMQOSResumeLatency
  rw [if_neg hfalse, hparse]
  have hread : FS.read fs (cpuSaveDir ++ "/cpu" ++ Nat.repr a ++ "/power")
      "pm_qos_resume_latency_us" = Except.error IOErr.notExist := by
    unfold FS.read
    rw [habs]
  simp only [pmqosLoop, if_neg hne, hread]
  simp

/-- Witness for the PM-QoS early return: cpu 0 has no save file while cpu 1
still has one; the call succeeds untouched, so cpu 1's save file survives and
its live knob is not rewritten. -/
theorem pmqos_restore_missing_save_aborts_loop_witness :
    wFsPmqos.files ("/var/run/crio/cpu/cpu1/power", "pm_qos_resume_latency_us") = some "20" ∧
    doSetCPUPMQOSResumeLatency (mkCtr "0-1") "" sysCPUDir sysCPUSaveDir wFsPmqos =
      (wFsPmqos, none) :=
  ⟨by decide,
   pmqos_restore_missing_save_aborts_loop (mkCtr "0-1") sysCPUDir sysCPUSaveDir wFsPmqos
     0 [1] (by decide) (by decide) (by decide)⟩

/-- C6: with an eligible container and only the c-states annotation present,
PreStart dispatches on the carried value: "enable" applies resume latency
"0", "disable" applies "n/a" (each propagating a wrapped failure and
otherwise succeeding), and any other value is a hard error — the call fails
with "invalid annotation value" and performs no write at all. -/
theorem preStart_cstates_dispatch
    (env : Env) (c : Container) (s : Sandbox) (fs : FS) (v : String)
    (hrun : shouldRunHooks c.spec s = POr.ok true)
    (hlb : shouldCPULoadBalancingBeDisabled s.annotations = false)
    (hshared : requestedSharedCPUs s.annotations c.name = false)
    (hirq : shouldIRQLoadBalancingBeDisabled s.annotations = false)
    (hquota : shouldCPUQuotaBeDisabled s.annotations = false)
    (hcs : shouldCStatesBeConfigured s.annotations = (true, v))
    (hgov : (shouldFreqGovernorBeConfigured s.annotations).1 = false) :
    (v ≠ annotationEnable → v ≠ annotationDisable →
      PreStart env c s fs =
        (fs, c, HookRes.err (IOErr.msg ("invalid annotation value " ++ v)))) ∧
    (v = annotationEnable →
      PreStart env c s fs =
        (match setCPUPMQOSResumeLatency c "0" fs with
         | (fs5, some e) =>
           (fs5, c, HookRes.err (IOErr.wrapped "set CPU PM QOS resume latency" e))
         | (fs5, none) => (fs5, c, HookRes.ok))) ∧
    (v = annotationDisable →
      PreStart env c s fs =
        (match setCPUPMQOSResumeLatency c "n/a" fs with
         | (fs5, some e) =>
           (fs5, c, HookRes.err (IOErr.wrapped "set CPU PM QOS resume latency" e))
         | (fs5, none) => (fs5, c, HookRes.ok))) := by
  unfold PreStart
  rw [hrun]
  simp only [hlb, hshared, hirq, hquota, hcs, hgov, Bool.false_eq_true, if_false, if_true]
  refine ⟨?_, ?_, ?_⟩
  · intro hv1 hv2
    rw [if_neg hv1, if_neg hv2]
  · intro hv
    rw [if_pos hv]
    rcases hpm : setCPUPMQOSResumeLatency c "0" fs with ⟨fs5, e5⟩
    cases e5 <;> simp only [hpm]
  · intro hv
    by_cases hv1 : v = annotationEnable
    · rw [hv1] at hv
      exact absurd hv (by decide)
    · rw [if_neg hv1, if_pos hv]
      rcases hpm : setCPUPMQOSResumeLatency c "n/a" fs with ⟨fs5, e5⟩
      cases e5 <;> simp only [hpm]

/-- Witness for the c-states dispatch: an eligible container whose pod
carries only the c-states annotation with the unrecognized value "badvalue"
makes PreStart fail with "invalid annotation value badvalue" and leaves the
filesystem untouched. -/
theorem preStart_cstates_dispatch_witness :
    shouldRunHooks (mkCtr "0-1").spec (wSandboxCStates "badvalue") = POr.ok true ∧
    PreStart (mkEnvV2 "/a") (mkCtr "0-1") (wSandboxCStates "badvalue") wFsEnable =
      (wFsEnable, mkCtr "0-1",
        HookRes.err (IOErr.msg ("invalid annotation value " ++ "badvalue"))) :=
  ⟨by decide,
   (preStart_cstates_dispatch (mkEnvV2 "/a") (mkCtr "0-1") (wSandboxCStates "badvalue")
      wFsEnable "badvalue" (by decide) (by decide) (by decide) (by decide) (by decide)
      (by decide) (by decide)).1 (by decide) (by decide)⟩

/-- C7: whenever the live IRQ affinity mask read from the affinity proc file
parses to something other than the all-bits-set default,
RestoreIrqBalanceConfig returns success immediately with the filesystem
untouched — no config rewrite, no backup-file creation. -/
theorem restoreIrqBalanceConfig_skip_when_not_all_ones
    (cfg bannedBackup affinityFile : String) (fs : FS) (content : String) (mask : List Nat)
    (hread : fs.readPath affinityFile = Except.ok content)
    (hmask : mapHexCharToByte (strIntercalate "" (strSplitOnChar ',' (strTrim content))) =
      Except.ok mask)
    (hnotall : isAllBitSet mask = false) :
    RestoreIrqBalanceConfig cfg bannedBackup affinityFile fs = (fs, none) := by
  unfold RestoreIrqBalanceConfig
  simp only [hread, hmask, hnotall]
  simp

/-- Witness for the boot-reconciliation no-op: a live mask of 00ff is not
all-ones, so the call succeeds without writing anything. -/
theorem restoreIrqBalanceConfig_skip_when_not_all_ones_witness :
    isAllBitSet [0, 0, 15, 15] = false ∧
    RestoreIrqBalanceConfig "/etc/sysconfig/irqbalance" "/etc/sysconfig/orig_irq_banned_cpus"
        "/proc/irq/default_smp_affinity" wFsIrq = (wFsIrq, none) :=
  ⟨by decide,
   restoreIrqBalanceConfig_skip_when_not_all_ones "/etc/sysconfig/irqbalance"
     "/etc/sysconfig/orig_irq_banned_cpus" "/proc/irq/default_smp_affinity" wFsIrq
     "00ff\n" [0, 0, 15, 15] (by decide) (by decide) (by decide)⟩

/-- C8: when Linux, Resources, CPU or Shares is nil on the container spec,
the eligibility evaluation dereferences the nil pointer: for a pod that is
neither burstable nor besteffort, isContainerRequestWholeCPU — and with it
shouldRunHooks, PreStart and PreStop — crashes instead of returning an
error. -/
theorem shouldRunHooks_nil_shares_panics
    (env : Env) (c : Container) (s : Sandbox) (fs : FS)
    (hnil : ∀ l r cpu, c.spec.linux = some l → l.resources = some r → r.cpu = some cpu →
      cpu.shares = none)
    (hb : isCgroupParentBurstable s = false)
    (he : isCgroupParentBestEffort s = false) :
    isContainerRequestWholeCPU c.spec = POr.panicked ∧
    shouldRunHooks c.spec s = POr.panicked ∧
    PreStart env c s fs = (fs, c, HookRes.panicked) ∧
    PreStop env c s fs = (fs, c, HookRes.panicked) := by
  have h1 : isContainerRequestWholeCPU c.spec = POr.panicked := by
    unfold isContainerRequestWholeCPU
    rcases hl : c.spec.linux with _ | l
    · rfl
    · simp only [hl]
      rcases hr : l.resources with _ | r
      · rfl
      · simp only [hr]
        rcases hc : r.cpu with _ | cpu
        · rfl
        · simp only [hc]
          rw [hnil l r cpu hl hr hc]
  have h2 : shouldRunHooks c.spec s = POr.panicked := by
    unfold shouldRunHooks
    rw [hb, he]
    simp only [Bool.false_eq_true, if_false]
    rw [h1]
  refine ⟨h1, h2, ?_, ?_⟩
  · unfold PreStart
    rw [h2]
  · unfold PreStop
    rw [h2]

/-- Witness for the eligibility panic: a container with nil Shares on an
ordinary (guaranteed) pod crashes PreStart. -/
theorem shouldRunHooks_nil_shares_panics_witness :
    isCgroupParentBurstable wSandboxAllAnns = false ∧
    PreStart (mkEnvV2 "/a") wCtrNoShares wSandboxAllAnns wFsEnable =
      (wFsEnable, wCtrNoShares, HookRes.panicked) :=
  ⟨by decide,
   (shouldRunHooks_nil_shares_panics (mkEnvV2 "/a") wCtrNoShares wSandboxAllAnns wFsEnable
      (by
        intro l r cpu hl hr hc
        injection hl with h1
        subst h1
        injection hr with h2
        subst h2
        injection hc with h3
        subst h3
        rfl)
      (by decide) (by decide)).2.2.1⟩

/-- C10: setSharedCPUs dereferences the nullable Period without a check: a
container passing the CPU-list precondition but carrying a nil Period makes
the call crash instead of returning an error. -/
theorem setSharedCPUs_nil_period_panics
    (env : Env) (c : Container) (s : Sandbox) (sh : CPUSet) (fs : FS) (iso : CPUSet)
    (hspec : cpuSpecMissing c.spec = false)
    (hparse : CPUSet.parse (specCPUs c.spec) = some iso)
    (hperiod : specCPUPeriod c.spec = none) :
    setSharedCPUs env c s (some sh) fs = (fs, c, HookRes.panicked) := by
  have hfalse : ¬(cpuSpecMissing c.spec = true) := by rw [hspec]; simp
  unfold setSharedCPUs
  rw [if_neg hfalse]
  simp only [hparse, hperiod]

/-- Witness for the nil-Period crash: cpus 2-3 parse fine, the guard passes,
and the call panics on the Period dereference. -/
theorem setSharedCPUs_nil_period_panics_witness :
    cpuSpecMissing wCtrNoPeriod.spec = false ∧
    setSharedCPUs wEnvShared wCtrNoPeriod wSandboxNoAnns (some [0, 1]) wFsShared =
      (wFsShared, wCtrNoPeriod, HookRes.panicked) :=
  ⟨by decide,
   setSharedCPUs_nil_period_panics wEnvShared wCtrNoPeriod wSandboxNoAnns [0, 1] wFsShared
     [2, 3] (by decide) (by decide) (by decide)⟩
